import Mathlib

/-!
Verification development for the Indian Court Data Fetcher repository.

The Python sources (app.py, models.py, scraper.py, summarizer_langchain.py)
are shallowly embedded below:

* JSON-like payloads (Python dicts produced by the scraper and stored via
  json.dumps / json.loads) become the inductive type JValue; json.dumps and
  json.loads become the executable functions dumps / loads.
* The SQLAlchemy models CourtCase, CaseOrder and SearchQuery become records;
  the database session becomes an explicit DB state threaded through search.
* The Flask route search in app.py becomes the function search, parameterized
  by an Env that supplies the external collaborators (current year, clock,
  source adapter, summarizer client, and an injectable persistence failure).
  The sequence of external interactions is recorded as a list of Events.
* CourtDataSummarizer.summarize_court_data and its helpers become total
  functions; Python exceptions inside them are modelled with Except and the
  try/except blocks become explicit matches.
-/

/-! ### Characters and small string utilities -/

/-- Opening curly brace (written via its code point). -/
def lbrace : Char := Char.ofNat 123

/-- Closing curly brace (written via its code point). -/
def rbrace : Char := Char.ofNat 125

/-- Single-quote character (written via its code point). -/
def sqc : Char := Char.ofNat 39

/-- Single quote as a one-character string. -/
def sqStr : String := String.mk [sqc]

/-- Lower-cases a string character by character (models str.lower for the
ASCII strings this system handles). -/
def lowerStr (s : String) : String := String.mk (s.data.map Char.toLower)

/-- Does the character list start with the given pattern? -/
def leadsWith : List Char → List Char → Bool
  | [], _ => true
  | _ :: _, [] => false
  | p :: ps, c :: cs => p == c && leadsWith ps cs

/-- Does the haystack contain the needle as a contiguous sublist?
Models the Python `in` operator on strings. -/
def hasSub (needle : List Char) : List Char → Bool
  | [] => leadsWith needle []
  | c :: t => leadsWith needle (c :: t) || hasSub needle t

/-- Python `needle in hay` on strings. -/
def containsStr (hay needle : String) : Bool := hasSub needle.data hay.data

/-- Drop leading whitespace characters. -/
def dropWs : List Char → List Char
  | [] => []
  | c :: r => if c.isWhitespace then dropWs r else c :: r

/-- Python str.strip(): drop whitespace from both ends.  (Implemented on
the character list so that it is kernel-computable.) -/
def pyStrip (s : String) : String := String.mk ((dropWs (dropWs s.data).reverse).reverse)

/-- Split a character list on a one-character separator (the semantics of
str.split / str.splitOn for a single-character separator). -/
def splitOnChar (sep : Char) : List Char → List (List Char)
  | [] => [[]]
  | c :: r =>
    let rest := splitOnChar sep r
    if c = sep then [] :: rest
    else
      match rest with
      | [] => [[c]]
      | g :: gs => (c :: g) :: gs

/-- Python s.replace(" ", ""): drop every space. -/
def removeSpaces (s : String) : String := String.mk (s.data.filter (fun c => !(c == ' ')))

/-- Python s.replace("_", " "). -/
def replaceUnderscores (s : String) : String :=
  String.mk (s.data.map (fun c => if c = '_' then ' ' else c))

/-- Is the string nonempty and all decimal digits?  Models str.isdigit for
the ASCII inputs this system handles. -/
def pyIsDigit (s : String) : Bool := !s.data.isEmpty && s.data.all Char.isDigit

/-- Numeric value of a decimal digit character. -/
def charDigit (c : Char) : Nat := c.toNat - 48

/-- Decimal value of a big-endian digit-character list. -/
def natOfDigs (ds : List Char) : Nat := ds.foldl (fun a c => 10 * a + charDigit c) 0

/-- The character for a decimal digit below ten. -/
def digitChar10 (d : Nat) : Char :=
  match d with
  | 0 => '0' | 1 => '1' | 2 => '2' | 3 => '3' | 4 => '4'
  | 5 => '5' | 6 => '6' | 7 => '7' | 8 => '8' | _ => '9'

/-- Digit-accumulating loop for decimal printing (fuel-structural so the
kernel can evaluate it). -/
def natCharsAux : Nat → Nat → List Char → List Char
  | 0, _, acc => acc
  | fuel + 1, n, acc =>
    if n = 0 then acc else natCharsAux fuel (n / 10) (digitChar10 (n % 10) :: acc)

/-- Big-endian decimal digit characters of a natural number. -/
def natChars (n : Nat) : List Char :=
  if n = 0 then ['0'] else natCharsAux (n + 1) n []

/-- Decimal rendering of an integer, as character list (matches Python repr
of an int, which is what json.dumps emits for ints). -/
def intChars (n : Int) : List Char :=
  if n < 0 then '-' :: natChars n.natAbs else natChars n.toNat

/-- Python int(s) on a string: optional surrounding whitespace, optional
sign, one or more decimal digits.  (Underscore grouping is not modelled;
no input in this system uses it.) -/
def pyInt (s : String) : Option Int :=
  let t := pyStrip s
  match t.data with
  | [] => none
  | '-' :: ds => if !ds.isEmpty && ds.all Char.isDigit then some (-(natOfDigs ds : Int)) else none
  | '+' :: ds => if !ds.isEmpty && ds.all Char.isDigit then some ((natOfDigs ds : Int)) else none
  | ds => if ds.all Char.isDigit then some ((natOfDigs ds : Int)) else none

/-! ### Calendar dates -/

/-- A parsed calendar date (what datetime.date carries, as far as this
system observes it). -/
structure Date where
  year : Nat
  month : Nat
  day : Nat
deriving DecidableEq, Repr

/-- datetime.strptime(s, "%Y-%m-%d").date(): three dash-separated decimal
components with a plausible month and day.  The day-of-month upper bound is
simplified to 31; no behaviour settled below depends on per-month lengths. -/
def parseDateYMD (s : String) : Option Date :=
  match (splitOnChar '-' s.data).map String.mk with
  | [ys, ms, ds] =>
    if pyIsDigit ys ∧ ys.length ≤ 4 ∧ pyIsDigit ms ∧ ms.length ≤ 2
        ∧ pyIsDigit ds ∧ ds.length ≤ 2 then
      let y := natOfDigs ys.data
      let m := natOfDigs ms.data
      let d := natOfDigs ds.data
      if 1 ≤ m ∧ m ≤ 12 ∧ 1 ≤ d ∧ d ≤ 31 then some ⟨y, m, d⟩ else none
    else none
  | _ => none

/-- Zero-padded two-digit rendering. -/
def pad2 (n : Nat) : String :=
  if n < 10 then "0" ++ String.mk (natChars n) else String.mk (natChars n)

/-- Zero-padded four-digit rendering. -/
def pad4 (n : Nat) : String :=
  if n < 10 then "000" ++ String.mk (natChars n)
  else if n < 100 then "00" ++ String.mk (natChars n)
  else if n < 1000 then "0" ++ String.mk (natChars n)
  else String.mk (natChars n)

/-- date.isoformat(). -/
def dateIso (d : Date) : String := pad4 d.year ++ "-" ++ pad2 d.month ++ "-" ++ pad2 d.day

/-! ### JSON values (the Python dict payloads) -/

/-- A JSON value: the shape of every payload the pipeline builds, stores
with json.dumps and re-reads with json.loads.  (The scraper and the cleaning
loop in app.py only produce None/bool/int/str/list/dict values; floats do
not occur in this system and are not modelled.) -/
inductive JValue where
  | null
  | bool (b : Bool)
  | int (n : Int)
  | str (s : String)
  | arr (xs : List JValue)
  | obj (kvs : List (String × JValue))

/-- A Python dict with string keys, as stored in payload fields. -/
abbrev JObj := List (String × JValue)

/-- Dict lookup: d.get(k) (first binding wins; Python dicts have unique
keys, so this is exact). -/
def jGet (k : String) (d : JObj) : Option JValue :=
  (d.find? (fun kv => kv.1 == k)).map (fun kv => kv.2)

/-- Python `k in d`. -/
def jHasKey (k : String) (d : JObj) : Bool := (jGet k d).isSome

/-- Lookup inside a JValue that is expected to be a dict; None otherwise. -/
def jGetJ (v : JValue) (k : String) : Option JValue :=
  match v with
  | .obj d => jGet k d
  | _ => none

/-- Python truthiness of a JSON value. -/
def jTruthy : JValue → Bool
  | .null => false
  | .bool b => b
  | .int n => n != 0
  | .str s => !s.data.isEmpty
  | .arr xs => !xs.isEmpty
  | .obj kvs => !kvs.isEmpty

/-! ### json.dumps

Printer matching json.dumps defaults: separators ", " and ": ", strings
quoted with double quotes, quote and backslash escaped.  (json.dumps would
additionally hex-escape control and non-ASCII characters; this encoding
difference does not affect any behaviour settled below, because a reader of
either encoding recovers the same value.) -/

/-- Escape one character of a JSON string body. -/
def escChar (c : Char) : List Char :=
  if c = '"' then ['\\', '"'] else if c = '\\' then ['\\', '\\'] else [c]

/-- Escape a whole string body. -/
def escList : List Char → List Char
  | [] => []
  | c :: cs => escChar c ++ escList cs

/-- A quoted, escaped JSON string literal. -/
def printStrJ (s : String) : List Char := '"' :: (escList s.data ++ ['"'])

mutual

/-- Serialize one JSON value. -/
def printV : JValue → List Char
  | .null => ['n', 'u', 'l', 'l']
  | .bool b => if b then ['t', 'r', 'u', 'e'] else ['f', 'a', 'l', 's', 'e']
  | .int n => intChars n
  | .str s => printStrJ s
  | .arr xs => '[' :: (printElems xs ++ [']'])
  | .obj kvs => lbrace :: (printMembers kvs ++ [rbrace])

/-- Serialize array elements, separated by ", ". -/
def printElems : List JValue → List Char
  | [] => []
  | [v] => printV v
  | v :: vs => printV v ++ (',' :: ' ' :: printElems vs)

/-- Serialize object members, "key": value separated by ", ". -/
def printMembers : List (String × JValue) → List Char
  | [] => []
  | [(k, v)] => printStrJ k ++ (':' :: ' ' :: printV v)
  | (k, v) :: kvs => printStrJ k ++ (':' :: ' ' :: printV v) ++ (',' :: ' ' :: printMembers kvs)

end

/-- json.dumps(v) (with default separators). -/
def dumps (v : JValue) : String := String.mk (printV v)

/-! ### json.loads -/

/-- Drop leading spaces. -/
def dropSp : List Char → List Char
  | ' ' :: r => dropSp r
  | r => r

/-- Split off the longest leading run of decimal digits. -/
def takeDigs : List Char → List Char × List Char
  | [] => ([], [])
  | c :: r =>
    if c.isDigit then
      let p := takeDigs r
      (c :: p.1, p.2)
    else ([], c :: r)

/-- Parse a nonempty run of decimal digits. -/
def parseNatJ (l : List Char) : Option (Nat × List Char) :=
  let p := takeDigs l
  if p.1.isEmpty then none else some (natOfDigs p.1, p.2)

/-- Parse the body of a JSON string literal (after the opening quote),
handling the two escapes the printer emits. -/
def parseStrChars : List Char → Option (List Char × List Char)
  | [] => none
  | c :: r =>
    if c = '"' then some ([], r)
    else if c = '\\' then
      match r with
      | [] => none
      | e :: r2 =>
        if e = '"' ∨ e = '\\' then
          match parseStrChars r2 with
          | some (s, rest) => some (e :: s, rest)
          | none => none
        else none
    else
      match parseStrChars r with
      | some (s, rest) => some (c :: s, rest)
      | none => none

mutual

/-- Parse one JSON value (fuel bounds the nesting depth). -/
def parseV : Nat → List Char → Option (JValue × List Char)
  | 0, _ => none
  | _ + 1, [] => none
  | fuel + 1, c :: r =>
    if c = 'n' then
      match r with
      | 'u' :: 'l' :: 'l' :: r2 => some (.null, r2)
      | _ => none
    else if c = 't' then
      match r with
      | 'r' :: 'u' :: 'e' :: r2 => some (.bool true, r2)
      | _ => none
    else if c = 'f' then
      match r with
      | 'a' :: 'l' :: 's' :: 'e' :: r2 => some (.bool false, r2)
      | _ => none
    else if c = '"' then
      match parseStrChars r with
      | some (s, r2) => some (.str (String.mk s), r2)
      | none => none
    else if c = '[' then
      match dropSp r with
      | ']' :: r2 => some (.arr [], r2)
      | r2 =>
        match parseElems fuel r2 with
        | some (xs, r3) => some (.arr xs, r3)
        | none => none
    else if c = lbrace then
      match dropSp r with
      | [] => none
      | d :: r3 =>
        if d = rbrace then some (.obj [], r3)
        else
          match parseMembers fuel (d :: r3) with
          | some (kvs, r4) => some (.obj kvs, r4)
          | none => none
    else if c = '-' then
      match parseNatJ r with
      | some (n, r2) => some (.int (-(n : Int)), r2)
      | none => none
    else if c.isDigit then
      match parseNatJ (c :: r) with
      | some (n, r2) => some (.int ((n : Int)), r2)
      | none => none
    else none

/-- Parse one or more array elements up to the closing bracket. -/
def parseElems : Nat → List Char → Option (List JValue × List Char)
  | 0, _ => none
  | fuel + 1, l =>
    match parseV fuel l with
    | some (v, r) =>
      match r with
      | ',' :: r2 =>
        match parseElems fuel (dropSp r2) with
        | some (vs, r3) => some (v :: vs, r3)
        | none => none
      | ']' :: r2 => some ([v], r2)
      | _ => none
    | none => none

/-- Parse one or more object members up to the closing brace. -/
def parseMembers : Nat → List Char → Option (List (String × JValue) × List Char)
  | 0, _ => none
  | fuel + 1, l =>
    match l with
    | [] => none
    | c :: r =>
      if c = '"' then
        match parseStrChars r with
        | some (ks, r1) =>
          match dropSp r1 with
          | ':' :: r2 =>
            match parseV fuel (dropSp r2) with
            | some (v, r3) =>
              match r3 with
              | [] => none
              | d :: r4 =>
                if d = ',' then
                  match parseMembers fuel (dropSp r4) with
                  | some (kvs, r5) => some ((String.mk ks, v) :: kvs, r5)
                  | none => none
                else if d = rbrace then some ([(String.mk ks, v)], r4)
                else none
            | none => none
          | _ => none
        | none => none
      else none

end

/-- json.loads(s): parse one value, allowing surrounding whitespace, and
require the whole input to be consumed. -/
def loads (s : String) : Option JValue :=
  let l := dropWs s.data
  match parseV (l.length + 1) l with
  | some (v, rest) => if dropWs rest = [] then some v else none
  | none => none

/-! ### Data model (models.py) -/

/-- The SearchQuery row: one Query Ledger attempt. -/
structure QueryRec where
  case_type : String
  case_number : String
  filing_year : Int
  court_name : String
  query_status : String
  response_time_ms : Option Int := none
  error_message : Option String := none
  case_id : Option Nat := none
deriving DecidableEq, Repr

/-- The CourtCase row: one resolved case.  Payload-derived columns hold the
JSON value the scraped dict supplied (or None); created_at / updated_at
timestamps are outside the model. -/
structure CourtCaseRec where
  id : Nat
  case_type : String
  case_number : String
  filing_year : Int
  court_name : String
  case_title : Option JValue
  petitioner_name : Option JValue
  respondent_name : Option JValue
  case_status : Option JValue
  judge_name : Option JValue
  advocate_petitioner : Option JValue
  advocate_respondent : Option JValue
  filing_date : Option Date
  registration_date : Option Date
  next_hearing_date : Option Date
  raw_response : JValue
  parsed_data : Option String
  ai_summary : Option String
  source_url : Option JValue
  scraping_method : Option JValue

/-- The CaseOrder row: one CaseDocument belonging to a case.  The PDF-cache
columns (pdf_downloaded, local_pdf_path, ...) are only mutated by the
excluded download route and are not modelled. -/
structure CaseOrderRec where
  case_id : Nat
  order_title : Option JValue
  pdf_url : Option JValue
  order_type : JValue
  is_latest : Bool
  order_date : Option Date

/-- The persistent store: ledger rows, case rows, order rows, and the next
autoincrement case id. -/
structure DB where
  queries : List QueryRec
  cases : List CourtCaseRec
  orders : List CaseOrderRec
  nextCaseId : Nat

/-- models.get_court_types(): the enumerated known case types. -/
def get_court_types : List String :=
  ["Civil Appeal", "Criminal Appeal", "Writ Petition", "Civil Writ Petition",
   "Criminal Writ Petition", "Civil Suit", "Criminal Case", "Matrimonial",
   "Company Petition", "Arbitration", "Execution", "Misc. Application",
   "Review Petition", "Special Leave Petition", "Contempt Petition"]

/-- CourtCase.get_parsed_data: json.loads of the stored text, with an empty
dict on a missing, empty, or unparseable column. -/
def get_parsed_data (c : CourtCaseRec) : JValue :=
  match c.parsed_data with
  | some s =>
    if s = "" then .obj []
    else
      match loads s with
      | some v => v
      | none => .obj []
  | none => .obj []

/-- CourtCase.set_parsed_data: store json.dumps of the dict. -/
def set_parsed_data (c : CourtCaseRec) (d : JObj) : CourtCaseRec :=
  { c with parsed_data := some (dumps (.obj d)) }

/-- A date column rendered as to_dict renders it. -/
def optDateJ (d : Option Date) : JValue :=
  match d with
  | some dt => .str (dateIso dt)
  | none => .null

/-- An optional text column rendered as to_dict renders it. -/
def optStrJ (s : Option String) : JValue :=
  match s with
  | some v => .str v
  | none => .null

/-- CourtCase.to_dict (timestamps outside the model are omitted). -/
def to_dictJ (c : CourtCaseRec) : JValue :=
  .obj [("id", .int (c.id : Int)), ("case_type", .str c.case_type),
    ("case_number", .str c.case_number), ("filing_year", .int c.filing_year),
    ("court_name", .str c.court_name),
    ("case_title", c.case_title.getD .null),
    ("petitioner_name", c.petitioner_name.getD .null),
    ("respondent_name", c.respondent_name.getD .null),
    ("filing_date", optDateJ c.filing_date),
    ("registration_date", optDateJ c.registration_date),
    ("next_hearing_date", optDateJ c.next_hearing_date),
    ("case_status", c.case_status.getD .null),
    ("judge_name", c.judge_name.getD .null),
    ("advocate_petitioner", c.advocate_petitioner.getD .null),
    ("advocate_respondent", c.advocate_respondent.getD .null),
    ("ai_summary", optStrJ c.ai_summary),
    ("source_url", c.source_url.getD .null)]

/-! ### Summarization service (summarizer_langchain.py)

Python str() / repr() of payload values, as used by the f-strings in the
summarizer.  repr of nested containers is modelled up to quoting details
(the exact rendering never influences a settled behaviour, only the fact
that it is a deterministic function of the value). -/

mutual

/-- Python repr() of a payload value. -/
def pyRepr : JValue → String
  | .null => "None"
  | .bool b => if b then "True" else "False"
  | .int n => String.mk (intChars n)
  | .str s => sqStr ++ s ++ sqStr
  | .arr xs => "[" ++ pyReprElems xs ++ "]"
  | .obj kvs => String.mk [lbrace] ++ pyReprMembers kvs ++ String.mk [rbrace]

/-- repr of list elements. -/
def pyReprElems : List JValue → String
  | [] => ""
  | [v] => pyRepr v
  | v :: vs => pyRepr v ++ ", " ++ pyReprElems vs

/-- repr of dict members. -/
def pyReprMembers : List (String × JValue) → String
  | [] => ""
  | [(k, v)] => sqStr ++ k ++ sqStr ++ ": " ++ pyRepr v
  | (k, v) :: kvs => sqStr ++ k ++ sqStr ++ ": " ++ pyRepr v ++ ", " ++ pyReprMembers kvs

end

/-- Python str() of a payload value (strings render bare, containers via
repr), as an f-string interpolates it. -/
def pyStrJ : JValue → String
  | .str s => s
  | v => pyRepr v

/-- " ".join and friends. -/
def joinStrs (sep : String) (l : List String) : String := String.intercalate sep l

/-- Decimal rendering of a Nat (f-string of a Python int that is known
nonnegative, e.g. a len()). -/
def natStr (n : Nat) : String := String.mk (natChars n)

/-- Decimal rendering of an Int in an f-string. -/
def intStr (n : Int) : String := String.mk (intChars n)

/-- CourtDataSummarizer._fallback_summary_text: the fixed default summary. -/
def fallback_summary_text : String :=
  "Summary: Court case information has been processed and retrieved from the legal database. The case details include relevant parties, filing information, current status, and procedural history. This information provides a comprehensive overview of the legal proceedings."

/-- The "Case highlights" lines of the multiple-cases fallback branch; each
listed case must be a dict or the iteration raises. -/
def caseHighlights : List JValue → Except String (List String)
  | [] => .ok []
  | .obj c :: rest => do
    let case_num := pyStrJ ((jGet "case_number" c).getD (.str "N/A"))
    let title := pyStrJ ((jGet "case_title" c).getD (.str "Title not available"))
    let status := pyStrJ ((jGet "status" c).getD (.str "Status unknown"))
    let more ← caseHighlights rest
    .ok (("  - " ++ case_num ++ ": " ++ title ++ " (Status: " ++ status ++ ")") :: more)
  | _ :: _ => .error "AttributeError"

/-- The try-body of CourtDataSummarizer._fallback_summary.  Operations that
would raise in Python (attribute access on a non-dict, indexing a non-list)
surface as .error and are absorbed by the enclosing except. -/
def fallbackCore (d : JObj) : Except String String := do
  if jHasKey "case_number" d then
    let case_num := pyStrJ ((jGet "case_number" d).getD (.str "Unknown"))
    let court := pyStrJ ((jGet "court_name" d).getD (.str "Unknown Court"))
    let title := pyStrJ ((jGet "case_title" d).getD (.str "Case details not available"))
    let status := pyStrJ ((jGet "case_status" d).getD ((jGet "status" d).getD (.str "Status unknown")))
    let p1 : List String :=
      ["Case Summary for " ++ case_num ++ ":",
       "This case titled " ++ sqStr ++ title ++ sqStr ++ " is being heard in " ++ court ++ ".",
       "Current Status: " ++ status]
    let p2 := if jHasKey "filing_date" d then
        p1 ++ ["Filed on: " ++ pyStrJ ((jGet "filing_date" d).getD .null)]
      else p1
    let p3 := if jHasKey "next_hearing" d then
        p2 ++ ["Next hearing scheduled for: " ++ pyStrJ ((jGet "next_hearing" d).getD .null)]
      else p2
    let p4 ← match jGet "parties" d with
      | none => pure p3
      | some (.obj ps) =>
        pure (p3 ++ ["Parties involved: " ++ pyStrJ ((jGet "petitioner" ps).getD (.str "Unknown"))
          ++ " vs " ++ pyStrJ ((jGet "respondent" ps).getD (.str "Unknown"))])
      | some _ => .error "AttributeError"
    let p5 ← match jGet "orders" d with
      | none => pure p4
      | some v =>
        if jTruthy v then
          match v with
          | .arr xs =>
            match xs.getLast? with
            | some (.obj o) =>
              pure (p4 ++ ["Latest order: " ++ pyStrJ ((jGet "order" o).getD (.str "No recent orders"))])
            | some _ => .error "AttributeError"
            | none => .error "IndexError"
          | _ => .error "TypeError"
        else pure p4
    pure (joinStrs " " p5)
  else if jHasKey "cases" d then
    let court := pyStrJ ((jGet "court_name" d).getD (.str "Multiple Courts"))
    let casesV := (jGet "cases" d).getD (.arr [])
    let total ← match casesV with
      | .arr xs => pure xs.length
      | .obj o => pure o.length
      | .str s => pure s.length
      | _ => .error "TypeError"
    let p1 := ["Court Cases Summary for " ++ court ++ ":",
               "Total cases found: " ++ natStr total]
    if jTruthy ((jGet "cases" d).getD .null) then
      match casesV with
      | .arr xs =>
        let lines ← caseHighlights (xs.take 3)
        let p2 := p1 ++ ["Case highlights:"] ++ lines
        let p3 := if total > 3 then p2 ++ ["  ... and " ++ natStr (total - 3) ++ " more cases"] else p2
        pure (joinStrs " " p3)
      | _ => .error "TypeError"
    else pure (joinStrs " " p1)
  else
    pure (joinStrs " "
      ["Court Data Summary:", "Retrieved court information from the legal database.",
       "Data contains: " ++ joinStrs ", " (d.map (fun kv => kv.1))])

/-- CourtDataSummarizer._fallback_summary: the rule-based summary, with the
internal except-all collapsing any failure to a fixed sentence. -/
def fallback_summary (d : JObj) : String :=
  match fallbackCore d with
  | .ok s => s
  | .error _ => "Unable to generate summary for the provided court data."

/-- The literal backslash-n separator used by _prepare_input_text (the
Python source writes a doubled backslash, so the separator is the
two-character sequence backslash n, not a newline). -/
def bsn : String := String.mk ['\\', 'n']

/-- Simplified str.title(): first letter of each space-separated word upper,
rest lower (only feeds the opaque model prompt). -/
def pyTitle (s : String) : String :=
  joinStrs " " ((s.splitOn " ").map (fun w =>
    match w.data with
    | [] => ""
    | c :: cs => String.mk (c.toUpper :: cs.map Char.toLower)))

/-- The "Recent Orders" lines of _format_single_case. -/
def orderLines : List JValue → Except String (List String)
  | [] => .ok []
  | .obj o :: rest => do
    let date := pyStrJ ((jGet "date" o).getD (.str "N/A"))
    let title := pyStrJ ((jGet "title" o).getD ((jGet "order" o).getD (.str "N/A")))
    let more ← orderLines rest
    .ok (("  - " ++ date ++ ": " ++ title) :: more)
  | _ :: _ => .error "AttributeError"

/-- CourtDataSummarizer._format_single_case. -/
def format_single_case (d : JObj) : Except String (List String) := do
  let p1 := (if jHasKey "case_number" d then
      ["Case Number: " ++ pyStrJ ((jGet "case_number" d).getD .null)] else [])
    ++ (if jHasKey "court_name" d then
      ["Court: " ++ pyStrJ ((jGet "court_name" d).getD .null)] else [])
    ++ (if jHasKey "case_title" d then
      ["Case Title: " ++ pyStrJ ((jGet "case_title" d).getD .null)] else [])
    ++ (if jHasKey "filing_date" d then
      ["Filing Date: " ++ pyStrJ ((jGet "filing_date" d).getD .null)] else [])
    ++ (if jHasKey "case_status" d then
        ["Status: " ++ pyStrJ ((jGet "case_status" d).getD .null)]
      else if jHasKey "status" d then
        ["Status: " ++ pyStrJ ((jGet "status" d).getD .null)]
      else [])
    ++ (if jHasKey "next_hearing_date" d then
        ["Next Hearing: " ++ pyStrJ ((jGet "next_hearing_date" d).getD .null)]
      else if jHasKey "next_hearing" d then
        ["Next Hearing: " ++ pyStrJ ((jGet "next_hearing" d).getD .null)]
      else [])
    ++ (if jHasKey "petitioner_name" d then
      ["Petitioner: " ++ pyStrJ ((jGet "petitioner_name" d).getD .null)] else [])
    ++ (if jHasKey "respondent_name" d then
      ["Respondent: " ++ pyStrJ ((jGet "respondent_name" d).getD .null)] else [])
    ++ (if jHasKey "judge_name" d then
      ["Judge: " ++ pyStrJ ((jGet "judge_name" d).getD .null)] else [])
    ++ (if jHasKey "advocate_petitioner" d then
      ["Advocate for Petitioner: " ++ pyStrJ ((jGet "advocate_petitioner" d).getD .null)] else [])
    ++ (if jHasKey "advocate_respondent" d then
      ["Advocate for Respondent: " ++ pyStrJ ((jGet "advocate_respondent" d).getD .null)] else [])
  let p2 ← match jGet "parties" d with
    | none => pure []
    | some (.obj ps) =>
      pure ((if jHasKey "petitioner" ps then
          ["Petitioner: " ++ pyStrJ ((jGet "petitioner" ps).getD .null)] else [])
        ++ (if jHasKey "respondent" ps then
          ["Respondent: " ++ pyStrJ ((jGet "respondent" ps).getD .null)] else []))
    | some _ => .error "AttributeError"
  let p3 ← match jGet "case_details" d with
    | none => pure []
    | some (.obj det) =>
      pure (det.map (fun kv => pyTitle (replaceUnderscores kv.1) ++ ": " ++ pyStrJ kv.2))
    | some _ => .error "AttributeError"
  let p4 ← match jGet "orders" d with
    | none => pure []
    | some (.arr xs) => do
      let lines ← orderLines xs
      pure ("Recent Orders:" :: lines)
    | some _ => .error "TypeError"
  pure (p1 ++ p2 ++ p3 ++ p4)

/-- The per-case lines of _format_multiple_cases (1-based enumeration). -/
def multiCaseLines (i : Nat) : List JValue → Except String (List String)
  | [] => .ok []
  | .obj c :: rest => do
    let more ← multiCaseLines (i + 1) rest
    .ok (((bsn ++ natStr i ++ ". Case Number: " ++ pyStrJ ((jGet "case_number" c).getD (.str "N/A")))
      :: (if jHasKey "case_title" c then
          ["   Title: " ++ pyStrJ ((jGet "case_title" c).getD .null)] else [])
      ++ (if jHasKey "filing_date" c then
          ["   Filing Date: " ++ pyStrJ ((jGet "filing_date" c).getD .null)] else [])
      ++ (if jHasKey "status" c then
          ["   Status: " ++ pyStrJ ((jGet "status" c).getD .null)] else [])) ++ more)
  | _ :: _ => .error "AttributeError"

/-- CourtDataSummarizer._format_multiple_cases. -/
def format_multiple_cases (d : JObj) : Except String (List String) := do
  let p1 := (if jHasKey "court_name" d then
      ["Court: " ++ pyStrJ ((jGet "court_name" d).getD .null)] else [])
    ++ (if jHasKey "date_range" d then
      ["Date Range: " ++ pyStrJ ((jGet "date_range" d).getD .null)] else [])
    ++ (if jHasKey "total_cases" d then
      ["Total Cases: " ++ pyStrJ ((jGet "total_cases" d).getD .null)] else [])
    ++ ["", "Cases:"]
  let p2 ← match (jGet "cases" d).getD (.arr []) with
    | .arr xs => multiCaseLines 1 xs
    | _ => .error "TypeError"
  pure (p1 ++ p2)

/-- The try-body of CourtDataSummarizer._prepare_input_text
(json.dumps(..., indent=2) of the fallthrough case is modelled by dumps;
the indentation never influences a settled behaviour). -/
def prepareCore (d : JObj) : Except String String := do
  let mid ← if jHasKey "case_number" d then format_single_case d
    else if jHasKey "cases" d then format_multiple_cases d
    else pure ["Court Data: " ++ dumps (.obj d)]
  pure (joinStrs bsn
    (["Please provide a comprehensive summary of the following court case information:", ""]
      ++ mid
      ++ ["", "Please provide a clear, professional summary focusing on key legal details:"]))

/-- CourtDataSummarizer._prepare_input_text with its internal except-all. -/
def prepare_input_text (d : JObj) : String :=
  match prepareCore d with
  | .ok s => s
  | .error _ => "Court case data: " ++ pyStrJ (.obj d) ++ bsn ++ bsn ++ "Summary:"

/-- The summarizer client: either absent (no GROQ_API_KEY, or construction
failed) or a ChatGroq handle whose invoke may fail with an exception. -/
inductive SummClient where
  | absent
  | present (invoke : String → Except String String)

/-- CourtDataSummarizer.summarize_court_data.  With no client the rule-based
fallback is returned; with a client, _generate_summary_langchain invokes the
model, catches any exception into the fixed fallback text, and also falls
back when the stripped reply is empty.  Both internal helpers catch their
own exceptions, so the outer except-all in the source is unreachable and
the function is total. -/
def summarize_court_data (client : SummClient) (d : JObj) : String :=
  match client with
  | .absent => fallback_summary d
  | .present invoke =>
    match invoke (prepare_input_text d) with
    | .ok s => if pyStrip s = "" then fallback_summary_text else pyStrip s
    | .error _ => fallback_summary_text

/-! ### Source adapter (scraper.py)

IndianCourtScraper.scrape_case_data wraps its body in a try/except whose
except branch regenerates the same demo data, so the demo payload is
returned whenever the generation itself does not raise; the Selenium /
requests machinery is never reached on this path.  The generation does
raise for one class of inputs: a case number accepted by str.isdigit but
rejected by int() (a Digit-type, non-decimal character such as a
superscript digit) makes the int() of _get_case_type_details raise
ValueError, the except branch raises it again, and the exception escapes
scrape_case_data. -/

/-- The fixed demo name pools. -/
def demoPetitioners : List String :=
  ["Rajesh Kumar", "Priya Sharma", "ABC Corporation Ltd.", "Municipal Corporation", "John Doe"]

/-- Demo respondents. -/
def demoRespondents : List String :=
  ["State of Delhi", "Union of India", "XYZ Private Ltd.", "Delhi Development Authority", "Revenue Department"]

/-- Demo judges. -/
def demoJudges : List String :=
  ["Hon. Justice A.K. Sharma", "Hon. Justice Meera Gupta", "Hon. Justice R.K. Singh", "Hon. Justice S. Verma"]

/-- Demo petitioner advocates. -/
def demoAdvocatesP : List String :=
  ["Adv. Rajesh Kumar", "Adv. Priya Mishra", "Adv. S.K. Jain", "Adv. Meera Agarwal"]

/-- Demo respondent advocates. -/
def demoAdvocatesR : List String :=
  ["State Counsel", "Government Advocate", "Adv. A.K. Gupta", "Adv. Corporate Legal"]

/-- One demo order descriptor (key order as in the source). -/
def demoOrder (title url otype odate : String) : JValue :=
  .obj [("title", .str title), ("url", .str url), ("type", .str otype), ("date", .str odate)]

/-- Title, status and orders of the case_types_mapping entry for the given
case type (default entry when the type is not one of the four listed). -/
structure DemoInfo where
  title : String
  status : String
  orders : List JValue

/-- The case_types_mapping of _get_case_type_details. -/
def demoCaseInfo (case_type case_number : String) (filing_year : Int) : DemoInfo :=
  if case_type = "Civil Appeal" then
    { title := "Civil Appeal No. " ++ case_number ++ " of " ++ intStr filing_year ++ " - Property Dispute",
      status := "Arguments Concluded",
      orders := [demoOrder "Judgment dated 2024-12-10" ("/orders/civil_judgment_" ++ case_number ++ ".pdf") "judgment" "2024-12-10",
                 demoOrder "Order dated 2024-11-25" ("/orders/civil_order_" ++ case_number ++ ".pdf") "order" "2024-11-25"] }
  else if case_type = "Criminal Appeal" then
    { title := "Criminal Appeal No. " ++ case_number ++ " of " ++ intStr filing_year ++ " - Appeals against Conviction",
      status := "Under Hearing",
      orders := [demoOrder "Bail Order dated 2024-12-05" ("/orders/criminal_bail_" ++ case_number ++ ".pdf") "order" "2024-12-05",
                 demoOrder "Notice to State dated 2024-11-30" ("/orders/criminal_notice_" ++ case_number ++ ".pdf") "notice" "2024-11-30"] }
  else if case_type = "Writ Petition" then
    { title := "Writ Petition (Civil) No. " ++ case_number ++ " of " ++ intStr filing_year ++ " - Public Interest Litigation",
      status := "Notice Issued",
      orders := [demoOrder "Notice to Respondents dated 2024-12-12" ("/orders/writ_notice_" ++ case_number ++ ".pdf") "notice" "2024-12-12",
                 demoOrder "Admission Order dated 2024-12-01" ("/orders/writ_admission_" ++ case_number ++ ".pdf") "order" "2024-12-01"] }
  else if case_type = "Company Petition" then
    { title := "Company Petition No. " ++ case_number ++ " of " ++ intStr filing_year ++ " - Corporate Insolvency",
      status := "Under Consideration",
      orders := [demoOrder "Interim Order dated 2024-12-08" ("/orders/company_interim_" ++ case_number ++ ".pdf") "order" "2024-12-08"] }
  else
    { title := case_type ++ " No. " ++ case_number ++ " of " ++ intStr filing_year,
      status := "Pending",
      orders := [demoOrder "Order dated 2024-12-01" ("/orders/general_order_" ++ case_number ++ ".pdf") "order" "2024-12-01"] }

/-- The full record _get_case_type_details returns. -/
structure DemoDetails where
  title : String
  petitioner : String
  respondent : String
  status : String
  judge : String
  adv_petitioner : String
  adv_respondent : String
  orders : List JValue

/-- Python str.isdigit is true for the Unicode Digit-type characters beyond
the decimal digits int() accepts; the superscript digits stand in for that
class here (other such characters behave identically). -/
def pyDigitCharU (c : Char) : Bool :=
  c.isDigit || c = '¹' || c = '²' || c = '³'

/-- str.isdigit as _get_case_type_details consults it (scraper.py line
152): nonempty and every character Digit-type. -/
def pyIsDigitU (s : String) : Bool := !s.data.isEmpty && s.data.all pyDigitCharU

/-- The idx = int(case_number) % 5 computation of scraper.py line 152,
performed only under the str.isdigit guard.  int() converts a decimal
string, but raises ValueError on a string isdigit accepts whose characters
are not all decimal digits. -/
def demoIdx (case_number : String) : Except String Nat :=
  if pyIsDigitU case_number then
    if pyIsDigit case_number then .ok (natOfDigs case_number.data % 5)
    else .error ("ValueError: invalid literal for int() with base 10: " ++ case_number)
  else .ok 0

/-- The details record built once the index has been computed. -/
def mkDemoDetails (case_type case_number : String) (filing_year : Int) (idx : Nat) :
    DemoDetails :=
  let info := demoCaseInfo case_type case_number filing_year
  { title := info.title,
    petitioner := demoPetitioners.getD idx "",
    respondent := demoRespondents.getD idx "",
    status := info.status,
    judge := demoJudges.getD (idx % 4) "",
    adv_petitioner := demoAdvocatesP.getD (idx % 4) "",
    adv_respondent := demoAdvocatesR.getD (idx % 4) "",
    orders := info.orders }

/-- IndianCourtScraper._get_case_type_details: the int() of the index
computation is its only raising operation, and the raise propagates. -/
def get_case_type_details (case_type case_number : String) (filing_year : Int) :
    Except String DemoDetails :=
  match demoIdx case_number with
  | .error e => .error e
  | .ok idx => .ok (mkDemoDetails case_type case_number filing_year idx)

/-- The demo dict get_demo_data builds from the details (scraper.py lines
118-138).  scrapedAt stands for datetime.now().isoformat(), supplied by the
environment. -/
def demoPayload (scrapedAt : String) (case_type case_number : String)
    (filing_year : Int) (court_name : String) (det : DemoDetails) : JObj :=
  [("case_type", .str case_type),
   ("case_number", .str case_number),
   ("filing_year", .int filing_year),
   ("court_name", .str court_name),
   ("case_title", .str det.title),
   ("petitioner_name", .str det.petitioner),
   ("respondent_name", .str det.respondent),
   ("filing_date", .str (intStr filing_year ++ "-03-15")),
   ("registration_date", .str (intStr filing_year ++ "-03-20")),
   ("next_hearing_date", .str "2025-02-15"),
   ("case_status", .str det.status),
   ("judge_name", .str det.judge),
   ("advocate_petitioner", .str det.adv_petitioner),
   ("advocate_respondent", .str det.adv_respondent),
   ("orders", .arr det.orders),
   ("source_url", .str ("https://" ++ removeSpaces (lowerStr court_name) ++ ".nic.in/case/" ++ case_number)),
   ("scraping_method", .str "demo"),
   ("scraped_at", .str scrapedAt),
   ("raw_html", .str ("<div>Demo HTML content for " ++ case_type ++ " " ++ case_number ++ "/" ++ intStr filing_year ++ "</div>"))]

/-- IndianCourtScraper.scrape_case_data.  Both the try body and the except
branch invoke the same demo generation (scraper.py lines 73 and 78), so a
generation that raises raises again in the except branch and the exception
escapes; otherwise the demo payload is returned. -/
def scrape_case_data (scrapedAt : String) (case_type case_number : String)
    (filing_year : Int) (court_name : String) : Except String JObj :=
  match get_case_type_details case_type case_number filing_year with
  | .error e => .error e
  | .ok det => .ok (demoPayload scrapedAt case_type case_number filing_year court_name det)

/-- The bundled adapter as the resolver sees it: the demo payload when the
generation succeeds, the escaped exception otherwise (caught by the search
route's outer except handler). -/
def demoFetch (scrapedAt : String) : String → String → Int → String → Except String JObj :=
  fun case_type case_number filing_year court_name =>
    scrape_case_data scrapedAt case_type case_number filing_year court_name

/-! ### The case resolver (app.py search route) -/

/-- Raw form fields of one inbound request, before normalization.  (All
four fields are modelled as present; request.form.get supplies "" or the
"Delhi High Court" default for missing ones.) -/
structure RawForm where
  case_type : String
  case_number : String
  filing_year : String
  court_name : String
deriving DecidableEq, Repr

/-- Externally visible interactions of one resolution, in program order. -/
inductive Event where
  | ledgerBegin
  | cacheLookup
  | sourceFetch
  | summarizeCall
  | ledgerComplete (status : String)
deriving DecidableEq, Repr

/-- The discriminated outcome handed to the presentation layer (the
render_template calls).  The failure and noData pages carry only an error
message - no case payload. -/
inductive SearchResponse where
  | validationError (messages : List String) (formData : RawForm)
  | cacheHit (courtData : JValue) (caseId : Nat) (summary : Option String)
  | noData (error : String)
  | fresh (courtData : JObj) (caseId : Nat) (summary : String)
  | failure (error : String)

/-- The environment of one request: clock values, the source adapter, the
summarizer client, and an injectable persistence failure (some msg makes
the db.session.add/flush/commit of the new case raise msg; ledger writes
are modelled as reliable storage). -/
structure Env where
  currentYear : Int
  today : Date
  elapsedMs : Int
  fetch : String → String → Int → String → Except String JObj
  client : SummClient
  persistFails : Option String

/-- The per-field validation messages for case_type (lines 66-69). -/
def caseTypeErrors (case_type : String) : List String :=
  if case_type = "" then ["Case Type is required"]
  else if !(get_court_types.contains case_type) then ["Invalid Case Type selected"]
  else []

/-- The per-field validation messages for case_number (lines 71-78; the
final length-below-one branch of the source is unreachable because the
empty string is caught by the first branch). -/
def caseNumberErrors (case_number : String) : List String :=
  if case_number = "" then ["Case Number is required"]
  else if !(pyIsDigit case_number) then ["Case Number must contain only numbers (e.g., 123)"]
  else if case_number.length > 10 then ["Case Number is too long (maximum 10 digits)"]
  else []

/-- The per-field validation messages for filing_year (lines 80-91). -/
def filingYearErrors (currentYear : Int) (filing_year : String) : List String :=
  if filing_year = "" then ["Filing Year is required"]
  else
    match pyInt filing_year with
    | none => ["Filing Year must be a valid number"]
    | some y =>
      if y < 1947 then ["Filing Year cannot be before 1947"]
      else if y > currentYear then
        ["Filing Year cannot be in the future (current year: " ++ intStr currentYear ++ ")"]
      else []

/-- The per-field validation messages for court_name (lines 93-94). -/
def courtNameErrors (court_name : String) : List String :=
  if court_name = "" then ["Court Name is required"] else []

/-- The accumulated validation_errors list, in source order. -/
def validationErrors (currentYear : Int) (form : RawForm) : List String :=
  caseTypeErrors (pyStrip form.case_type)
    ++ caseNumberErrors (pyStrip form.case_number)
    ++ filingYearErrors currentYear (pyStrip form.filing_year)
    ++ courtNameErrors (pyStrip form.court_name)

/-- The error-message classification of the except handler (lines 269-276). -/
def classifyError (msg : String) : String :=
  if containsStr (lowerStr msg) "connection" then
    "Unable to connect to court website. Please try again later."
  else if containsStr (lowerStr msg) "timeout" then
    "Request timed out. The court website may be busy. Please try again."
  else if containsStr (lowerStr msg) "database" then
    "Database error occurred. Please try again."
  else "An unexpected error occurred while processing your request."

/-- The CourtCase.query.filter_by fingerprint predicate. -/
def fingerMatches (case_type case_number : String) (filing_year : Int)
    (court_name : String) (c : CourtCaseRec) : Bool :=
  c.case_type == case_type && c.case_number == case_number
    && c.filing_year == filing_year && c.court_name == court_name

/-- .first() of the fingerprint lookup. -/
def findExisting (cases : List CourtCaseRec) (case_type case_number : String)
    (filing_year : Int) (court_name : String) : Option CourtCaseRec :=
  cases.find? (fingerMatches case_type case_number filing_year court_name)

/-- The cleaning loop of lines 207-214: every JValue already is one of the
primitive / list / dict shapes, so each branch keeps the value. -/
def cleanValue : JValue → JValue
  | .null => .null
  | .bool b => .bool b
  | .int n => .int n
  | .str s => .str s
  | .arr xs => .arr xs
  | .obj kvs => .obj kvs

/-- clean_scraped_data built key by key from scraped_data.items(). -/
def clean_scraped_data (d : JObj) : JObj := d.map (fun kv => (kv.1, cleanValue kv.2))

/-- The truthiness-guarded strptime of lines 192-202: only a nonempty
string is attempted; a parse failure (or the exception a non-string value
raises inside strptime) is swallowed, leaving the column absent. -/
def truthyStrDate (v : Option JValue) : Option Date :=
  match v with
  | some (.str s) => if s = "" then none else parseDateYMD s
  | _ => none

/-- The per-order date assignment of lines 234-238: an untruthy or missing
value leaves the column unset; a string that parses is stored; any raising
attempt (unparseable string, non-string truthy value) stores today. -/
def orderDateOf (today : Date) (v : Option JValue) : Option Date :=
  match v with
  | some (.str s) =>
    if s = "" then none
    else
      match parseDateYMD s with
      | some dt => some dt
      | none => some today
  | some w => if jTruthy w then some today else none
  | none => none

/-- scraped_data.get('orders', []).  The demo adapter always supplies a
list here; a non-list value is outside the model. -/
def ordersOf (scraped : JObj) : List JValue :=
  match jGet "orders" scraped with
  | some (.arr xs) => xs
  | _ => []

/-- The CourtCase constructed at lines 173-219 (id already assigned by the
flush). -/
def mkNewCase (id : Nat) (case_type case_number : String) (filing_year : Int)
    (court_name : String) (scraped : JObj) (summary : String) : CourtCaseRec :=
  { id := id, case_type := case_type, case_number := case_number,
    filing_year := filing_year, court_name := court_name,
    case_title := jGet "case_title" scraped,
    petitioner_name := jGet "petitioner_name" scraped,
    respondent_name := jGet "respondent_name" scraped,
    case_status := jGet "case_status" scraped,
    judge_name := jGet "judge_name" scraped,
    advocate_petitioner := jGet "advocate_petitioner" scraped,
    advocate_respondent := jGet "advocate_respondent" scraped,
    raw_response := (jGet "raw_html" scraped).getD (.str ""),
    ai_summary := some summary,
    source_url := jGet "source_url" scraped,
    scraping_method := jGet "scraping_method" scraped,
    filing_date := truthyStrDate (jGet "filing_date" scraped),
    registration_date := none,
    next_hearing_date := truthyStrDate (jGet "next_hearing_date" scraped),
    parsed_data := some (dumps (.obj (clean_scraped_data scraped))) }

/-- The CaseOrder constructed at lines 226-238 for one order descriptor. -/
def mkOrder (today : Date) (caseId : Nat) (total : Nat) (od : JValue) : CaseOrderRec :=
  { case_id := caseId,
    order_title := jGetJ od "title",
    pdf_url := jGetJ od "url",
    order_type := (jGetJ od "type").getD (.str "order"),
    is_latest := total == 1,
    order_date := orderDateOf today (jGetJ od "date") }

/-- The search route (app.py lines 49-280) as a state transformer.  The
returned event list records the order of external interactions; the
transaction of the new case and its orders is atomic, so an injected
persistence failure leaves no case or order row and routes through the
except handler (which completes the ledger attempt as failed). -/
def search (env : Env) (db : DB) (form : RawForm) : DB × SearchResponse × List Event :=
  let case_type := pyStrip form.case_type
  let case_number := pyStrip form.case_number
  let filing_year_raw := pyStrip form.filing_year
  let court_name := pyStrip form.court_name
  let validation_errors := validationErrors env.currentYear form
  if validation_errors.isEmpty then
    let filing_year : Int := (pyInt filing_year_raw).getD 0
    let q0 : QueryRec :=
      { case_type := case_type, case_number := case_number, filing_year := filing_year,
        court_name := court_name, query_status := "in_progress" }
    let db1 : DB := { db with queries := db.queries ++ [q0] }
    match findExisting db1.cases case_type case_number filing_year court_name with
    | some existing =>
      let q1 := { q0 with
        query_status := "cache_hit", case_id := some existing.id,
        response_time_ms := some env.elapsedMs }
      let pd := get_parsed_data existing
      let court_data := if jTruthy pd then pd else to_dictJ existing
      ({ db1 with queries := db.queries ++ [q1] },
       .cacheHit court_data existing.id existing.ai_summary,
       [.ledgerBegin, .cacheLookup, .ledgerComplete "cache_hit"])
    | none =>
      match env.fetch case_type case_number filing_year court_name with
      | .error msg =>
        let q1 := { q0 with
          query_status := "failed", error_message := some msg,
          response_time_ms := some env.elapsedMs }
        ({ db1 with queries := db.queries ++ [q1] },
         .failure (classifyError msg),
         [.ledgerBegin, .cacheLookup, .sourceFetch, .ledgerComplete "failed"])
      | .ok scraped =>
        if scraped.isEmpty then
          let q1 := { q0 with
            query_status := "no_data",
            error_message := some "No data found for the given case details",
            response_time_ms := some env.elapsedMs }
          ({ db1 with queries := db.queries ++ [q1] },
           .noData "No case found with the provided details. Please verify the case information.",
           [.ledgerBegin, .cacheLookup, .sourceFetch, .ledgerComplete "no_data"])
        else
          let summary := summarize_court_data env.client scraped
          let new_case := mkNewCase db1.nextCaseId case_type case_number filing_year court_name scraped summary
          match env.persistFails with
          | some msg =>
            let q1 := { q0 with
              query_status := "failed", error_message := some msg,
              response_time_ms := some env.elapsedMs }
            ({ db1 with queries := db.queries ++ [q1] },
             .failure (classifyError msg),
             [.ledgerBegin, .cacheLookup, .sourceFetch, .summarizeCall, .ledgerComplete "failed"])
          | none =>
            let total := (ordersOf scraped).length
            let new_orders := (ordersOf scraped).map (mkOrder env.today new_case.id total)
            let q1 := { q0 with
              query_status := "success", case_id := some new_case.id,
              response_time_ms := some env.elapsedMs }
            ({ queries := db.queries ++ [q1], cases := db1.cases ++ [new_case],
               orders := db1.orders ++ new_orders, nextCaseId := db1.nextCaseId + 1 },
             .fresh scraped new_case.id summary,
             [.ledgerBegin, .cacheLookup, .sourceFetch, .summarizeCall, .ledgerComplete "success"])
  else
    (db, .validationError validation_errors form, [])

/-- Is an event a ledger completion? -/
def isComplete : Event → Bool
  | .ledgerComplete _ => true
  | _ => false

/-- How many ledger completions a trace contains. -/
def completeCount (tr : List Event) : Nat := (tr.filter isComplete).length

/-- The terminal ledger statuses. -/
def terminalStatuses : List String := ["cache_hit", "success", "no_data", "failed"]

/-! ### Auxiliary measures and fixtures used by the verification -/

/-- True when the list does not start with a decimal digit (boundary
condition for number parsing). -/
def headNotDigit : List Char → Bool
  | [] => true
  | c :: _ => !c.isDigit

mutual

/-- A fuel bound sufficient for parseV on the printed form of a value. -/
def jfuel : JValue → Nat
  | .arr xs => 1 + jfuelL xs
  | .obj kvs => 1 + jfuelM kvs
  | _ => 1

/-- Fuel bound for parseElems. -/
def jfuelL : List JValue → Nat
  | [] => 1
  | x :: xs => 1 + max (jfuel x) (jfuelL xs)

/-- Fuel bound for parseMembers. -/
def jfuelM : List (String × JValue) → Nat
  | [] => 1
  | (_, v) :: kvs => 1 + max (jfuel v) (jfuelM kvs)

end

/-- A well-formed request used by the concrete witnesses. -/
def demoForm : RawForm :=
  { case_type := "Civil Appeal", case_number := "101", filing_year := "2024",
    court_name := "Delhi High Court" }

/-- An empty store. -/
def emptyDB : DB := { queries := [], cases := [], orders := [], nextCaseId := 1 }

/-- A baseline environment: demo adapter, absent summarizer client,
reliable persistence. -/
def baseEnv : Env :=
  { currentYear := 2025, today := ⟨2025, 6, 1⟩, elapsedMs := 42,
    fetch := demoFetch "2025-06-01T10:00:00", client := .absent, persistFails := none }

/-- An environment whose source adapter signals not-found (falsy result). -/
def notFoundEnv : Env := { baseEnv with fetch := fun _ _ _ _ => .ok [] }

/-- An environment in which persisting the new case raises a database error. -/
def dbFailEnv : Env := { baseEnv with persistFails := some "database write failed" }

/-- A request whose case number breaks two rules at once (not digits, and
longer than ten characters). -/
def badNumberForm : RawForm :=
  { case_type := "Civil Appeal", case_number := "abcdefghijkl", filing_year := "2024",
    court_name := "Delhi High Court" }

/-- A document descriptor whose date does not parse. -/
def badDateOrder : JValue :=
  .obj [("title", .str "Order One"), ("url", .str "/o1.pdf"),
        ("type", .str "order"), ("date", .str "not-a-date")]

/-- A source payload whose three date fields all fail to parse. -/
def badDatesScraped : JObj :=
  [("case_title", .str "Test Case"),
   ("filing_date", .str "bad-date"),
   ("next_hearing_date", .str "also-bad"),
   ("orders", .arr [badDateOrder])]

/-- An environment whose source adapter returns the bad-dates payload. -/
def badDatesEnv : Env := { baseEnv with fetch := fun _ _ _ _ => .ok badDatesScraped }

/-- A minimal summarizer input used by concrete checks. -/
def miniCaseData : JObj := [("case_number", .str "101")]

/-- The payload the demo adapter hands the resolver for the demo request
(whose decimal case number generates successfully). -/
def demoScraped : JObj :=
  match scrape_case_data "2025-06-01T10:00:00" (pyStrip demoForm.case_type)
      (pyStrip demoForm.case_number) ((pyInt (pyStrip demoForm.filing_year)).getD 0)
      (pyStrip demoForm.court_name) with
  | .ok j => j
  | .error _ => []

/-- The court_data the cache-hit page shows: the stored parsed payload when
truthy, the row rendered by to_dict otherwise (lines 147-150). -/
def cacheCourtData (c : CourtCaseRec) : JValue :=
  if jTruthy (get_parsed_data c) then get_parsed_data c else to_dictJ c

/-! ### Decimal printing reads back -/

theorem charDigit_digitChar10 (d : Nat) (h : d < 10) : charDigit (digitChar10 d) = d := by
  interval_cases d <;> rfl

theorem digitChar10_isDigit (d : Nat) (h : d < 10) : (digitChar10 d).isDigit = true := by
  interval_cases d <;> rfl

theorem natCharsAux_acc (fuel : Nat) : ∀ (n : Nat) (acc : List Char),
    natCharsAux fuel n acc = natCharsAux fuel n [] ++ acc := by
  induction fuel with
  | zero => intro n acc; simp [natCharsAux]
  | succ fuel ih =>
    intro n acc
    by_cases h : n = 0
    · simp [natCharsAux, h]
    · simp only [natCharsAux, h, if_false]
      rw [ih (n / 10) (digitChar10 (n % 10) :: acc), ih (n / 10) [digitChar10 (n % 10)]]
      simp

theorem natCharsAux_extra (n : Nat) : ∀ (f1 f2 : Nat) (acc : List Char), n < f1 → n < f2 →
    natCharsAux f1 n acc = natCharsAux f2 n acc := by
  induction n using Nat.strong_induction_on with
  | _ n ih =>
    intro f1 f2 acc h1 h2
    cases f1 with
    | zero => omega
    | succ f1 =>
      cases f2 with
      | zero => omega
      | succ f2 =>
        by_cases h : n = 0
        · simp [natCharsAux, h]
        · simp only [natCharsAux, h, if_false]
          have hdiv : n / 10 < n := Nat.div_lt_self (by omega) (by norm_num)
          exact ih (n / 10) hdiv f1 f2 _ (by omega) (by omega)

theorem natOfDigs_append (l : List Char) (c : Char) :
    natOfDigs (l ++ [c]) = 10 * natOfDigs l + charDigit c := by
  simp [natOfDigs, List.foldl_append]

theorem natOfDigs_natChars (n : Nat) : natOfDigs (natChars n) = n := by
  induction n using Nat.strong_induction_on with
  | _ n ih =>
    unfold natChars
    by_cases h : n = 0
    · simp [h]; rfl
    · simp only [h, if_false]
      rw [show natCharsAux (n + 1) n [] = natCharsAux n (n / 10) [digitChar10 (n % 10)] from by
        simp [natCharsAux, h]]
      rw [natCharsAux_acc, natOfDigs_append]
      have hdiv : n / 10 < n := Nat.div_lt_self (by omega) (by norm_num)
      rw [charDigit_digitChar10 _ (Nat.mod_lt n (by omega))]
      by_cases h10 : n / 10 = 0
      · rw [h10]
        rw [show ∀ f, natCharsAux f 0 [] = [] from fun f => by cases f <;> simp [natCharsAux]]
        have : natOfDigs [] = 0 := rfl
        rw [this]
        omega
      · rw [natCharsAux_extra (n / 10) n (n / 10 + 1) [] (by omega) (by omega)]
        rw [show natCharsAux (n / 10 + 1) (n / 10) [] = natChars (n / 10) from by
          simp [natChars, h10]]
        rw [ih (n / 10) hdiv]
        omega

theorem natChars_ne_nil (n : Nat) : natChars n ≠ [] := by
  unfold natChars
  by_cases h : n = 0
  · simp [h]
  · simp only [h, if_false]
    rw [show natCharsAux (n + 1) n [] = natCharsAux n (n / 10) [digitChar10 (n % 10)] from by
      simp [natCharsAux, h]]
    rw [natCharsAux_acc]
    simp

theorem natCharsAux_digits (fuel : Nat) : ∀ (n : Nat) (acc : List Char),
    (∀ c ∈ acc, c.isDigit = true) → ∀ c ∈ natCharsAux fuel n acc, c.isDigit = true := by
  induction fuel with
  | zero => intro n acc hacc; simpa [natCharsAux] using hacc
  | succ fuel ih =>
    intro n acc hacc
    by_cases h : n = 0
    · simpa [natCharsAux, h] using hacc
    · simp only [natCharsAux, h, if_false]
      refine ih (n / 10) _ ?_
      intro c hc
      rcases List.mem_cons.mp hc with rfl | hc
      · exact digitChar10_isDigit _ (Nat.mod_lt n (by omega))
      · exact hacc c hc

theorem natChars_all_digit (n : Nat) : ∀ c ∈ natChars n, c.isDigit = true := by
  unfold natChars
  by_cases h : n = 0
  · simp [h]
  · simp only [h, if_false]
    exact natCharsAux_digits (n + 1) n [] (by simp)

/-! ### Digit runs and string bodies parse back -/

theorem takeDigs_append (ds rest : List Char) (hds : ∀ c ∈ ds, c.isDigit = true)
    (hrest : headNotDigit rest = true) : takeDigs (ds ++ rest) = (ds, rest) := by
  induction ds with
  | nil =>
    simp only [List.nil_append]
    cases rest with
    | nil => rfl
    | cons c r =>
      simp only [headNotDigit, Bool.not_eq_true'] at hrest
      simp [takeDigs, hrest]
  | cons c ds ih =>
    have hc : c.isDigit = true := hds c (by simp)
    simp only [List.cons_append, takeDigs, hc, if_true]
    rw [show ds.append rest = ds ++ rest from rfl, ih (fun x hx => hds x (by simp [hx]))]

theorem parseNatJ_print (m : Nat) (rest : List Char) (hrest : headNotDigit rest = true) :
    parseNatJ (natChars m ++ rest) = some (m, rest) := by
  unfold parseNatJ
  rw [takeDigs_append _ _ (natChars_all_digit m) hrest]
  have h1 : (natChars m).isEmpty = false := by
    cases h : natChars m with
    | nil => exact absurd h (natChars_ne_nil m)
    | cons a b => rfl
  simp [h1, natOfDigs_natChars]

theorem digit_not_ws (c : Char) (h : c.isDigit = true) : c.isWhitespace = false := by
  cases hw : c.isWhitespace with
  | false => rfl
  | true =>
    exfalso
    have hd : ((c = ' ' ∨ c = '\t') ∨ c = '\x0d') ∨ c = '\n' := by
      simpa [Char.isWhitespace, Bool.or_eq_true, decide_eq_true_eq] using hw
    rcases hd with ((rfl | rfl) | rfl) | rfl <;> exact absurd h (by decide)

theorem dropSp_cons (c : Char) (t : List Char) (hc : c ≠ ' ') : dropSp (c :: t) = c :: t := by
  rw [dropSp.eq_def]
  split
  · rename_i heq
    injection heq with h1 h2
    exact absurd h1.symm (fun he => hc he.symm)
  · rfl

theorem dropWs_cons (c : Char) (t : List Char) (hc : c.isWhitespace = false) :
    dropWs (c :: t) = c :: t := by
  simp [dropWs, hc]

theorem parseStrChars_esc (cs rest : List Char) :
    parseStrChars (escList cs ++ ('"' :: rest)) = some (cs, rest) := by
  induction cs with
  | nil =>
    rw [show escList [] ++ ('"' :: rest) = '"' :: rest from rfl]
    rw [parseStrChars.eq_def]
    simp
  | cons c cs ih =>
    by_cases h1 : c = '"'
    · subst h1
      rw [show escList ('"' :: cs) ++ ('"' :: rest)
          = '\\' :: '"' :: (escList cs ++ ('"' :: rest)) from by simp [escList, escChar]]
      rw [parseStrChars.eq_def]
      simp [ih]
    · by_cases h2 : c = '\\'
      · subst h2
        rw [show escList ('\\' :: cs) ++ ('"' :: rest)
            = '\\' :: '\\' :: (escList cs ++ ('"' :: rest)) from by simp [escList, escChar]]
        rw [parseStrChars.eq_def]
        simp [ih]
      · rw [show escList (c :: cs) ++ ('"' :: rest)
            = c :: (escList cs ++ ('"' :: rest)) from by simp [escList, escChar, h1, h2]]
        rw [parseStrChars.eq_def]
        simp [h1, h2, ih]

/-! ### The printed form parses back -/

theorem isDigit_ne (c : Char) (h : c.isDigit = true) :
    c ≠ 'n' ∧ c ≠ 't' ∧ c ≠ 'f' ∧ c ≠ '"' ∧ c ≠ '[' ∧ c ≠ lbrace ∧ c ≠ '-' ∧ c ≠ ']' ∧ c ≠ ' ' := by
  refine ⟨?_, ?_, ?_, ?_, ?_, ?_, ?_, ?_, ?_⟩ <;> (intro he; subst he; exact absurd h (by decide))

theorem ws_ne_space (c : Char) (h : c.isWhitespace = false) : c ≠ ' ' := by
  intro he
  subst he
  exact absurd h (by decide)

theorem jfuel_pos (v : JValue) : 1 ≤ jfuel v := by
  cases v <;> simp only [jfuel] <;> omega

theorem jfuelL_pos (xs : List JValue) : 1 ≤ jfuelL xs := by
  cases xs <;> simp only [jfuelL] <;> omega

theorem jfuelM_pos (kvs : List (String × JValue)) : 1 ≤ jfuelM kvs := by
  cases kvs with
  | nil => simp [jfuelM]
  | cons kv kvs => cases kv; simp only [jfuelM]; omega

theorem printV_head (v : JValue) :
    ∃ c cs, printV v = c :: cs ∧ c.isWhitespace = false ∧ c ≠ ']' := by
  cases v with
  | null => exact ⟨'n', ['u', 'l', 'l'], by simp [printV], by decide, by decide⟩
  | bool b =>
    cases b with
    | true => exact ⟨'t', ['r', 'u', 'e'], by simp [printV], by decide, by decide⟩
    | false => exact ⟨'f', ['a', 'l', 's', 'e'], by simp [printV], by decide, by decide⟩
  | int n =>
    by_cases hn : n < 0
    · exact ⟨'-', natChars n.natAbs, by simp [printV, intChars, hn], by decide, by decide⟩
    · obtain ⟨c, cs, hc⟩ : ∃ c cs, natChars n.toNat = c :: cs := by
        cases h : natChars n.toNat with
        | nil => exact absurd h (natChars_ne_nil _)
        | cons a b => exact ⟨a, b, rfl⟩
      have hd : c.isDigit = true := natChars_all_digit _ c (by rw [hc]; exact List.mem_cons_self _ _)
      exact ⟨c, cs, by simp [printV, intChars, hn, hc], digit_not_ws c hd,
        (isDigit_ne c hd).2.2.2.2.2.2.2.1⟩
  | str s => exact ⟨'"', escList s.data ++ ['"'], by simp [printV, printStrJ], by decide, by decide⟩
  | arr xs => exact ⟨'[', printElems xs ++ [']'], by simp [printV], by decide, by decide⟩
  | obj kvs => exact ⟨lbrace, printMembers kvs ++ [rbrace], by simp [printV], by decide, by decide⟩

theorem printElems_cons_head (x : JValue) (xs : List JValue) :
    ∃ c t, printElems (x :: xs) = c :: t ∧ c.isWhitespace = false ∧ c ≠ ']' := by
  obtain ⟨c, cs, hpc, hws, hbr⟩ := printV_head x
  cases xs with
  | nil => exact ⟨c, cs, by simp [printElems, hpc], hws, hbr⟩
  | cons y ys =>
    exact ⟨c, cs ++ (',' :: ' ' :: printElems (y :: ys)), by simp [printElems, hpc], hws, hbr⟩

theorem printMembers_cons_head (k : String) (v : JValue) (kvs : List (String × JValue)) :
    ∃ t, printMembers ((k, v) :: kvs) = '"' :: t := by
  cases kvs with
  | nil =>
    exact ⟨escList k.data ++ ['"'] ++ (':' :: ' ' :: printV v), by simp [printMembers, printStrJ]⟩
  | cons kv kvs =>
    exact ⟨escList k.data ++ ['"'] ++ (':' :: ' ' :: printV v)
        ++ (',' :: ' ' :: printMembers (kv :: kvs)),
      by cases kv; simp [printMembers, printStrJ]⟩

theorem dropSp_print_space (l : List Char) (c : Char) (t : List Char)
    (h : l = c :: t) (hws : c.isWhitespace = false) (X : List Char) :
    dropSp (' ' :: (l ++ X)) = l ++ X := by
  rw [show dropSp (' ' :: (l ++ X)) = dropSp (l ++ X) from rfl]
  rw [h]
  simp only [List.cons_append]
  rw [dropSp_cons c _ (ws_ne_space c hws)]

mutual

theorem parseV_print : ∀ (v : JValue) (F : Nat) (rest : List Char), jfuel v ≤ F →
    headNotDigit rest = true → parseV F (printV v ++ rest) = some (v, rest)
  | .null, F, rest, hF, hrest => by
    cases F with
    | zero => have h1 := jfuel_pos JValue.null; omega
    | succ F' =>
      rw [show printV .null ++ rest = 'n' :: 'u' :: 'l' :: 'l' :: rest from by simp [printV]]
      simp only [parseV]
      simp
  | .bool b, F, rest, hF, hrest => by
    cases F with
    | zero => have h1 := jfuel_pos (JValue.bool b); omega
    | succ F' =>
      cases b with
      | true =>
        rw [show printV (.bool true) ++ rest = 't' :: 'r' :: 'u' :: 'e' :: rest from by
          simp [printV]]
        simp only [parseV]
        simp
      | false =>
        rw [show printV (.bool false) ++ rest = 'f' :: 'a' :: 'l' :: 's' :: 'e' :: rest from by
          simp [printV]]
        simp only [parseV]
        simp
  | .int n, F, rest, hF, hrest => by
    cases F with
    | zero => have h1 := jfuel_pos (JValue.int n); omega
    | succ F' =>
      by_cases hn : n < 0
      · rw [show printV (.int n) ++ rest = '-' :: (natChars n.natAbs ++ rest) from by
          simp [printV, intChars, hn]]
        simp only [parseV]
        rw [parseNatJ_print n.natAbs rest hrest]
        have hml : ('-' : Char) ≠ lbrace := by decide
        simp [hml, -Int.natCast_natAbs]
        omega
      · obtain ⟨c, cs, hc⟩ : ∃ c cs, natChars n.toNat = c :: cs := by
          cases h : natChars n.toNat with
          | nil => exact absurd h (natChars_ne_nil _)
          | cons a b => exact ⟨a, b, rfl⟩
        have hd : c.isDigit = true := natChars_all_digit _ c (by rw [hc]; exact List.mem_cons_self _ _)
        obtain ⟨e1, e2, e3, e4, e5, e6, e7, e8, e9⟩ := isDigit_ne c hd
        rw [show printV (.int n) ++ rest = c :: (cs ++ rest) from by simp [printV, intChars, hn, hc]]
        simp only [parseV]
        simp only [e1, e2, e3, e4, e5, e6, e7, hd, if_false, if_true, ite_true, ite_false]
        rw [show c :: (cs ++ rest) = natChars n.toNat ++ rest from by rw [hc]; rfl]
        rw [parseNatJ_print n.toNat rest hrest]
        simp only [Option.some.injEq, Prod.mk.injEq, JValue.int.injEq, and_true]
        omega
  | .str s, F, rest, hF, hrest => by
    cases F with
    | zero => have h1 := jfuel_pos (JValue.str s); omega
    | succ F' =>
      obtain ⟨sd⟩ := s
      rw [show printV (.str ⟨sd⟩) ++ rest = '"' :: (escList sd ++ ('"' :: rest)) from by
        simp [printV, printStrJ]]
      simp only [parseV]
      rw [parseStrChars_esc sd rest]
      simp
  | .arr [], F, rest, hF, hrest => by
    cases F with
    | zero => have h1 := jfuel_pos (JValue.arr []); omega
    | succ F' =>
      rw [show printV (.arr []) ++ rest = '[' :: (']' :: rest) from by simp [printV, printElems]]
      simp only [parseV]
      have hbl : ('[' : Char) ≠ lbrace := by decide
      simp [hbl]
      rw [dropSp_cons ']' rest (by decide)]
      simp
  | .arr (x :: xs), F, rest, hF, hrest => by
    cases F with
    | zero => have h1 := jfuel_pos (JValue.arr (x :: xs)); omega
    | succ F' =>
      have hF' : jfuelL (x :: xs) ≤ F' := by
        simp only [jfuel] at hF
        omega
      obtain ⟨c, t, hpe, hws, hbr⟩ := printElems_cons_head x xs
      rw [show printV (.arr (x :: xs)) ++ rest = '[' :: (c :: (t ++ (']' :: rest))) from by
        simp [printV, hpe]]
      simp only [parseV]
      have hbl : ('[' : Char) ≠ lbrace := by decide
      simp [hbl]
      rw [dropSp_cons c _ (ws_ne_space c hws)]
      split
      · rename_i r2 heq
        rw [List.cons.injEq] at heq
        exact absurd heq.1 hbr
      · rw [show c :: (t ++ (']' :: rest)) = printElems (x :: xs) ++ (']' :: rest) from by
          rw [hpe]; rfl]
        rw [parseElems_print x xs F' rest hF']
  | .obj [], F, rest, hF, hrest => by
    cases F with
    | zero => have h1 := jfuel_pos (JValue.obj []); omega
    | succ F' =>
      rw [show printV (.obj []) ++ rest = lbrace :: (rbrace :: rest) from by
        simp [printV, printMembers]]
      simp only [parseV]
      have hb1 : lbrace ≠ 'n' := by decide
      have hb2 : lbrace ≠ 't' := by decide
      have hb3 : lbrace ≠ 'f' := by decide
      have hb4 : lbrace ≠ '"' := by decide
      have hb5 : lbrace ≠ '[' := by decide
      simp [hb1, hb2, hb3, hb4, hb5]
      rw [dropSp_cons rbrace rest (by decide)]
      simp
  | .obj ((k, v) :: kvs), F, rest, hF, hrest => by
    cases F with
    | zero => have h1 := jfuel_pos (JValue.obj ((k, v) :: kvs)); omega
    | succ F' =>
      have hF' : jfuelM ((k, v) :: kvs) ≤ F' := by
        simp only [jfuel] at hF
        omega
      obtain ⟨t, hpe⟩ := printMembers_cons_head k v kvs
      rw [show printV (.obj ((k, v) :: kvs)) ++ rest
          = lbrace :: ('"' :: (t ++ (rbrace :: rest))) from by simp [printV, hpe]]
      simp only [parseV]
      have hb1 : lbrace ≠ 'n' := by decide
      have hb2 : lbrace ≠ 't' := by decide
      have hb3 : lbrace ≠ 'f' := by decide
      have hb4 : lbrace ≠ '"' := by decide
      have hb5 : lbrace ≠ '[' := by decide
      have hbq : ('"' : Char) ≠ rbrace := by decide
      simp [hb1, hb2, hb3, hb4, hb5]
      rw [dropSp_cons '"' _ (by decide)]
      simp [hbq]
      rw [show '"' :: (t ++ (rbrace :: rest)) = printMembers ((k, v) :: kvs) ++ (rbrace :: rest)
          from by rw [hpe]; rfl]
      rw [parseMembers_print k v kvs F' rest hF']
termination_by v F rest hF hrest => jfuel v
decreasing_by
  all_goals simp only [jfuel, jfuelL, jfuelM]
  all_goals omega

theorem parseElems_print : ∀ (x : JValue) (xs : List JValue) (F : Nat) (rest : List Char),
    jfuelL (x :: xs) ≤ F →
    parseElems F (printElems (x :: xs) ++ (']' :: rest)) = some (x :: xs, rest)
  | x, [], F, rest, hF => by
    cases F with
    | zero => have h1 := jfuelL_pos [x]; omega
    | succ F' =>
      have hfx : jfuel x ≤ F' := by
        simp only [jfuelL] at hF ⊢
        omega
      rw [show printElems [x] ++ (']' :: rest) = printV x ++ (']' :: rest) from by
        simp [printElems]]
      simp only [parseElems]
      rw [parseV_print x F' (']' :: rest) hfx rfl]
      simp
  | x, y :: ys, F, rest, hF => by
    cases F with
    | zero => have h1 := jfuelL_pos (x :: y :: ys); omega
    | succ F' =>
      have hfx : jfuel x ≤ F' := by
        simp only [jfuelL] at hF ⊢
        omega
      have hfl : jfuelL (y :: ys) ≤ F' := by
        simp only [jfuelL] at hF ⊢
        omega
      obtain ⟨c, t, hpe, hws, hbr⟩ := printElems_cons_head y ys
      rw [show printElems (x :: y :: ys) ++ (']' :: rest)
          = printV x ++ (',' :: ' ' :: (printElems (y :: ys) ++ (']' :: rest))) from by
        simp [printElems]]
      simp only [parseElems]
      rw [parseV_print x F' (',' :: ' ' :: (printElems (y :: ys) ++ (']' :: rest))) hfx rfl]
      simp only []
      rw [dropSp_print_space (printElems (y :: ys)) c t hpe hws (']' :: rest)]
      rw [parseElems_print y ys F' rest hfl]
termination_by x xs F rest hF => jfuelL (x :: xs)
decreasing_by
  all_goals simp only [jfuel, jfuelL, jfuelM]
  all_goals omega

theorem parseMembers_print : ∀ (k : String) (v : JValue) (kvs : List (String × JValue))
    (F : Nat) (rest : List Char), jfuelM ((k, v) :: kvs) ≤ F →
    parseMembers F (printMembers ((k, v) :: kvs) ++ (rbrace :: rest)) = some ((k, v) :: kvs, rest)
  | k, v, [], F, rest, hF => by
    cases F with
    | zero => have h1 := jfuelM_pos [(k, v)]; omega
    | succ F' =>
      have hfv : jfuel v ≤ F' := by
        simp only [jfuelM] at hF ⊢
        omega
      obtain ⟨kd⟩ := k
      rw [show printMembers [(⟨kd⟩, v)] ++ (rbrace :: rest)
          = '"' :: (escList kd ++ ('"' :: (':' :: ' ' :: (printV v ++ (rbrace :: rest))))) from by
        simp [printMembers, printStrJ]]
      simp only [parseMembers]
      rw [parseStrChars_esc kd (':' :: ' ' :: (printV v ++ (rbrace :: rest)))]
      simp only []
      rw [dropSp_cons ':' (' ' :: (printV v ++ (rbrace :: rest))) (by decide)]
      simp only []
      obtain ⟨c, cs, hpc, hws, hbr⟩ := printV_head v
      rw [dropSp_print_space (printV v) c cs hpc hws (rbrace :: rest)]
      rw [parseV_print v F' (rbrace :: rest) hfv rfl]
      have hrc : rbrace ≠ ',' := by decide
      simp [hrc]
  | k, v, (k2, v2) :: kvs, F, rest, hF => by
    cases F with
    | zero => have h1 := jfuelM_pos ((k, v) :: (k2, v2) :: kvs); omega
    | succ F' =>
      have hfv : jfuel v ≤ F' := by
        simp only [jfuelM] at hF ⊢
        omega
      have hfm : jfuelM ((k2, v2) :: kvs) ≤ F' := by
        simp only [jfuelM] at hF ⊢
        omega
      obtain ⟨kd⟩ := k
      rw [show printMembers ((⟨kd⟩, v) :: (k2, v2) :: kvs) ++ (rbrace :: rest)
          = '"' :: (escList kd ++ ('"' :: (':' :: ' ' ::
              (printV v ++ (',' :: ' ' :: (printMembers ((k2, v2) :: kvs) ++ (rbrace :: rest)))))))
          from by simp [printMembers, printStrJ]]
      simp only [parseMembers]
      rw [parseStrChars_esc kd (':' :: ' ' ::
        (printV v ++ (',' :: ' ' :: (printMembers ((k2, v2) :: kvs) ++ (rbrace :: rest)))))]
      simp only []
      rw [dropSp_cons ':' (' ' ::
        (printV v ++ (',' :: ' ' :: (printMembers ((k2, v2) :: kvs) ++ (rbrace :: rest))))) (by decide)]
      simp only []
      obtain ⟨c, cs, hpc, hws, hbr⟩ := printV_head v
      rw [dropSp_print_space (printV v) c cs hpc hws
        (',' :: ' ' :: (printMembers ((k2, v2) :: kvs) ++ (rbrace :: rest)))]
      rw [parseV_print v F' (',' :: ' ' ::
        (printMembers ((k2, v2) :: kvs) ++ (rbrace :: rest))) hfv rfl]
      simp only [List.cons.injEq]
      simp
      obtain ⟨t2, hpm⟩ := printMembers_cons_head k2 v2 kvs
      rw [dropSp_print_space (printMembers ((k2, v2) :: kvs)) '"' t2 hpm (by decide) (rbrace :: rest)]
      rw [parseMembers_print k2 v2 kvs F' rest hfm]
termination_by k v kvs F rest hF => jfuelM ((k, v) :: kvs)
decreasing_by
  all_goals simp only [jfuel, jfuelL, jfuelM]
  all_goals omega

end

/-! ### Enough fuel for the printed form -/

mutual

theorem jfuel_le_print : ∀ (v : JValue), jfuel v ≤ (printV v).length + 1
  | .null => by simp only [jfuel]; omega
  | .bool b => by simp only [jfuel]; omega
  | .int n => by simp only [jfuel]; omega
  | .str s => by simp only [jfuel]; omega
  | .arr [] => by
    simp only [jfuel, jfuelL, printV, printElems]
    simp
  | .arr (x :: xs) => by
    have h1 := jfuelL_le_print x xs
    simp only [jfuel, printV]
    simp only [List.length_cons, List.length_append, List.length_cons, List.length_nil]
    omega
  | .obj [] => by
    simp only [jfuel, jfuelM, printV, printMembers]
    simp
  | .obj ((k, v) :: kvs) => by
    have h1 := jfuelM_le_print k v kvs
    simp only [jfuel, printV]
    simp only [List.length_cons, List.length_append, List.length_nil]
    omega
termination_by v => jfuel v
decreasing_by
  all_goals simp only [jfuel, jfuelL, jfuelM]
  all_goals omega

theorem jfuelL_le_print : ∀ (x : JValue) (xs : List JValue),
    jfuelL (x :: xs) ≤ (printElems (x :: xs)).length + 2
  | x, [] => by
    have h1 := jfuel_le_print x
    simp only [jfuelL, printElems]
    omega
  | x, y :: ys => by
    have h1 := jfuel_le_print x
    have h2 := jfuelL_le_print y ys
    simp only [jfuelL] at h2
    simp only [jfuelL, printElems]
    simp only [List.length_append, List.length_cons]
    omega
termination_by x xs => jfuelL (x :: xs)
decreasing_by
  all_goals simp only [jfuel, jfuelL, jfuelM]
  all_goals omega

theorem jfuelM_le_print : ∀ (k : String) (v : JValue) (kvs : List (String × JValue)),
    jfuelM ((k, v) :: kvs) ≤ (printMembers ((k, v) :: kvs)).length + 2
  | k, v, [] => by
    have h1 := jfuel_le_print v
    simp only [jfuelM, printMembers]
    simp only [List.length_append, List.length_cons]
    omega
  | k, v, (k2, v2) :: kvs => by
    have h1 := jfuel_le_print v
    have h2 := jfuelM_le_print k2 v2 kvs
    simp only [jfuelM] at h2
    simp only [jfuelM, printMembers]
    simp only [List.length_append, List.length_cons]
    omega
termination_by k v kvs => jfuelM ((k, v) :: kvs)
decreasing_by
  all_goals simp only [jfuel, jfuelL, jfuelM]
  all_goals omega

end

/-! ### json.loads inverts json.dumps -/

theorem loads_dumps (v : JValue) : loads (dumps v) = some v := by
  obtain ⟨c, cs, hpc, hws, hbr⟩ := printV_head v
  have hdw : dropWs (printV v) = printV v := by rw [hpc]; exact dropWs_cons c cs hws
  have hp := parseV_print v ((printV v).length + 1) [] (by have := jfuel_le_print v; omega) rfl
  rw [List.append_nil] at hp
  unfold loads dumps
  rw [show (String.mk (printV v)).data = printV v from rfl]
  rw [hdw]
  dsimp only
  rw [hp]
  simp [dropWs]

example (c : CourtCaseRec) (d : JObj) : get_parsed_data (set_parsed_data c d) = .obj d := by
  unfold get_parsed_data set_parsed_data
  simp only []
  have hne : dumps (.obj d) ≠ "" := by
    unfold dumps
    intro h
    have h2 := congrArg String.data h
    simp [printV] at h2
  simp [hne, loads_dumps]

/-! ### Branch characterizations of the search route -/

theorem search_validation (env : Env) (db : DB) (form : RawForm)
    (h : validationErrors env.currentYear form ≠ []) :
    search env db form = (db, .validationError (validationErrors env.currentYear form) form, []) := by
  unfold search
  have h2 : (validationErrors env.currentYear form).isEmpty = false := by
    cases hh : validationErrors env.currentYear form with
    | nil => exact absurd hh h
    | cons a b => rfl
  simp [h2]

theorem search_cache_hit (env : Env) (db : DB) (form : RawForm) (c : CourtCaseRec)
    (hv : validationErrors env.currentYear form = [])
    (hfind : findExisting db.cases (pyStrip form.case_type) (pyStrip form.case_number)
      ((pyInt (pyStrip form.filing_year)).getD 0) (pyStrip form.court_name) = some c) :
    search env db form =
      ({ db with queries := db.queries ++
          [⟨pyStrip form.case_type, pyStrip form.case_number,
            (pyInt (pyStrip form.filing_year)).getD 0, pyStrip form.court_name,
            "cache_hit", some env.elapsedMs, none, some c.id⟩] },
       .cacheHit (if jTruthy (get_parsed_data c) then get_parsed_data c else to_dictJ c) c.id
         c.ai_summary,
       [.ledgerBegin, .cacheLookup, .ledgerComplete "cache_hit"]) := by
  unfold search
  simp [hv, hfind]

theorem search_fetch_error (env : Env) (db : DB) (form : RawForm) (msg : String)
    (hv : validationErrors env.currentYear form = [])
    (hfind : findExisting db.cases (pyStrip form.case_type) (pyStrip form.case_number)
      ((pyInt (pyStrip form.filing_year)).getD 0) (pyStrip form.court_name) = none)
    (hfetch : env.fetch (pyStrip form.case_type) (pyStrip form.case_number)
      ((pyInt (pyStrip form.filing_year)).getD 0) (pyStrip form.court_name) = .error msg) :
    search env db form =
      ({ db with queries := db.queries ++
          [⟨pyStrip form.case_type, pyStrip form.case_number,
            (pyInt (pyStrip form.filing_year)).getD 0, pyStrip form.court_name,
            "failed", some env.elapsedMs, some msg, none⟩] },
       .failure (classifyError msg),
       [.ledgerBegin, .cacheLookup, .sourceFetch, .ledgerComplete "failed"]) := by
  unfold search
  simp [hv, hfind, hfetch]

theorem search_no_data (env : Env) (db : DB) (form : RawForm)
    (hv : validationErrors env.currentYear form = [])
    (hfind : findExisting db.cases (pyStrip form.case_type) (pyStrip form.case_number)
      ((pyInt (pyStrip form.filing_year)).getD 0) (pyStrip form.court_name) = none)
    (hfetch : env.fetch (pyStrip form.case_type) (pyStrip form.case_number)
      ((pyInt (pyStrip form.filing_year)).getD 0) (pyStrip form.court_name) = .ok []) :
    search env db form =
      ({ db with queries := db.queries ++
          [⟨pyStrip form.case_type, pyStrip form.case_number,
            (pyInt (pyStrip form.filing_year)).getD 0, pyStrip form.court_name,
            "no_data", some env.elapsedMs, some "No data found for the given case details", none⟩] },
       .noData "No case found with the provided details. Please verify the case information.",
       [.ledgerBegin, .cacheLookup, .sourceFetch, .ledgerComplete "no_data"]) := by
  unfold search
  simp [hv, hfind, hfetch]

theorem search_persist_fail (env : Env) (db : DB) (form : RawForm) (scraped : JObj) (m : String)
    (hv : validationErrors env.currentYear form = [])
    (hfind : findExisting db.cases (pyStrip form.case_type) (pyStrip form.case_number)
      ((pyInt (pyStrip form.filing_year)).getD 0) (pyStrip form.court_name) = none)
    (hfetch : env.fetch (pyStrip form.case_type) (pyStrip form.case_number)
      ((pyInt (pyStrip form.filing_year)).getD 0) (pyStrip form.court_name) = .ok scraped)
    (hne : scraped ≠ [])
    (hpf : env.persistFails = some m) :
    search env db form =
      ({ db with queries := db.queries ++
          [⟨pyStrip form.case_type, pyStrip form.case_number,
            (pyInt (pyStrip form.filing_year)).getD 0, pyStrip form.court_name,
            "failed", some env.elapsedMs, some m, none⟩] },
       .failure (classifyError m),
       [.ledgerBegin, .cacheLookup, .sourceFetch, .summarizeCall, .ledgerComplete "failed"]) := by
  unfold search
  have hne2 : scraped.isEmpty = false := by
    cases hh : scraped with
    | nil => exact absurd hh hne
    | cons a b => rfl
  simp [hv, hfind, hfetch, hne2, hpf]

theorem search_success (env : Env) (db : DB) (form : RawForm) (scraped : JObj)
    (hv : validationErrors env.currentYear form = [])
    (hfind : findExisting db.cases (pyStrip form.case_type) (pyStrip form.case_number)
      ((pyInt (pyStrip form.filing_year)).getD 0) (pyStrip form.court_name) = none)
    (hfetch : env.fetch (pyStrip form.case_type) (pyStrip form.case_number)
      ((pyInt (pyStrip form.filing_year)).getD 0) (pyStrip form.court_name) = .ok scraped)
    (hne : scraped ≠ [])
    (hpf : env.persistFails = none) :
    search env db form =
      ({ queries := db.queries ++
          [⟨pyStrip form.case_type, pyStrip form.case_number,
            (pyInt (pyStrip form.filing_year)).getD 0, pyStrip form.court_name,
            "success", some env.elapsedMs, none, some db.nextCaseId⟩],
         cases := db.cases ++
          [mkNewCase db.nextCaseId (pyStrip form.case_type) (pyStrip form.case_number)
            ((pyInt (pyStrip form.filing_year)).getD 0) (pyStrip form.court_name) scraped
            (summarize_court_data env.client scraped)],
         orders := db.orders ++
          (ordersOf scraped).map (mkOrder env.today db.nextCaseId (ordersOf scraped).length),
         nextCaseId := db.nextCaseId + 1 },
       .fresh scraped db.nextCaseId (summarize_court_data env.client scraped),
       [.ledgerBegin, .cacheLookup, .sourceFetch, .summarizeCall, .ledgerComplete "success"]) := by
  unfold search
  have hne2 : scraped.isEmpty = false := by
    cases hh : scraped with
    | nil => exact absurd hh hne
    | cons a b => rfl
  simp [hv, hfind, hfetch, hne2, hpf]
  simp [mkNewCase]
/-! ### Shared lemmas about validation fields and the cache lookup -/

theorem caseTypeErrors_nil (s : String) :
    caseTypeErrors s = [] ↔ (s ≠ "" ∧ get_court_types.contains s = true) := by
  unfold caseTypeErrors
  split_ifs with h1 h2 <;> simp_all

theorem caseNumberErrors_nil (s : String) :
    caseNumberErrors s = [] ↔ (s ≠ "" ∧ pyIsDigit s = true ∧ s.length ≤ 10) := by
  unfold caseNumberErrors
  split_ifs with h1 h2 h3 <;> simp_all <;> omega

theorem filingYearErrors_nil (cy : Int) (s : String) :
    filingYearErrors cy s = []
      ↔ (s ≠ "" ∧ ∃ y, pyInt s = some y ∧ 1947 ≤ y ∧ y ≤ cy) := by
  unfold filingYearErrors
  by_cases h1 : s = ""
  · simp [h1]
  · simp only [h1, if_false]
    cases hp : pyInt s with
    | none => simp [hp, h1]
    | some y =>
      dsimp only
      split_ifs with h2 h3
      · constructor
        · intro hF; exact absurd hF (by simp)
        · rintro ⟨-, y2, hy2, hge, hle⟩
          injection hy2 with he
          subst he
          omega
      · constructor
        · intro hF; exact absurd hF (by simp)
        · rintro ⟨-, y2, hy2, hge, hle⟩
          injection hy2 with he
          subst he
          omega
      · constructor
        · intro _
          exact ⟨h1, y, rfl, by omega, by omega⟩
        · intro _
          rfl

theorem courtNameErrors_nil (s : String) : courtNameErrors s = [] ↔ s ≠ "" := by
  unfold courtNameErrors
  split_ifs with h1 <;> simp_all

theorem caseTypeErrors_len (s : String) : (caseTypeErrors s).length ≤ 1 := by
  unfold caseTypeErrors
  split_ifs <;> simp

theorem caseNumberErrors_len (s : String) : (caseNumberErrors s).length ≤ 1 := by
  unfold caseNumberErrors
  split_ifs <;> simp

theorem filingYearErrors_len (cy : Int) (s : String) : (filingYearErrors cy s).length ≤ 1 := by
  unfold filingYearErrors
  split_ifs with h1
  · simp
  · cases pyInt s with
    | none => simp
    | some y =>
      dsimp only
      split_ifs <;> simp

theorem courtNameErrors_len (s : String) : (courtNameErrors s).length ≤ 1 := by
  unfold courtNameErrors
  split_ifs <;> simp

theorem fingerMatches_mkNewCase (ct cn : String) (fy : Int) (cnm : String) (id : Nat)
    (scraped : JObj) (s : String) :
    fingerMatches ct cn fy cnm (mkNewCase id ct cn fy cnm scraped s) = true := by
  simp [fingerMatches, mkNewCase]

theorem findExisting_append (cs : List CourtCaseRec) (c : CourtCaseRec) (ct cn : String)
    (fy : Int) (cnm : String) (h : findExisting cs ct cn fy cnm = none)
    (hc : fingerMatches ct cn fy cnm c = true) :
    findExisting (cs ++ [c]) ct cn fy cnm = some c := by
  unfold findExisting at h ⊢
  induction cs with
  | nil => simp [List.find?, hc]
  | cons a l ih =>
    rw [List.cons_append]
    by_cases hpa : fingerMatches ct cn fy cnm a = true
    · rw [List.find?_cons_of_pos _ hpa] at h
      exact absurd h (by simp)
    · rw [List.find?_cons_of_neg _ hpa] at h
      rw [List.find?_cons_of_neg _ hpa]
      exact ih h

/-! ### The claims -/

/-- Claim C1: for every request that passes validation, the ledger attempt is
begun (persisted as in_progress) before any cache lookup, source fetch or
summarization call, and on every exit path the resolution completes the
ledger exactly once, as its last interaction, with a terminal status; the
persisted attempt row carries that status, the elapsed time, and the
normalized request fingerprint.  (Ledger writes are modelled as reliable
storage; the row is inserted when begun and holds its terminal state when
the response is returned.) -/
theorem spec_C1_ledger_lifecycle (env : Env) (db : DB) (form : RawForm)
    (hv : validationErrors env.currentYear form = []) :
    ∃ (st : String) (q : QueryRec),
      (search env db form).2.2.head? = some Event.ledgerBegin ∧
      completeCount (search env db form).2.2 = 1 ∧
      (search env db form).2.2.getLast? = some (Event.ledgerComplete st) ∧
      st ∈ terminalStatuses ∧
      (search env db form).1.queries = db.queries ++ [q] ∧
      q.query_status = st ∧
      q.response_time_ms = some env.elapsedMs ∧
      q.case_type = pyStrip form.case_type ∧
      q.case_number = pyStrip form.case_number ∧
      q.filing_year = (pyInt (pyStrip form.filing_year)).getD 0 ∧
      q.court_name = pyStrip form.court_name := by
  cases hfind : findExisting db.cases (pyStrip form.case_type) (pyStrip form.case_number)
      ((pyInt (pyStrip form.filing_year)).getD 0) (pyStrip form.court_name) with
  | some c =>
    rw [search_cache_hit env db form c hv hfind]
    exact ⟨"cache_hit", _, rfl, rfl, rfl, by simp [terminalStatuses], rfl, rfl, rfl, rfl,
      rfl, rfl, rfl⟩
  | none =>
    cases hfetch : env.fetch (pyStrip form.case_type) (pyStrip form.case_number)
        ((pyInt (pyStrip form.filing_year)).getD 0) (pyStrip form.court_name) with
    | error msg =>
      rw [search_fetch_error env db form msg hv hfind hfetch]
      exact ⟨"failed", _, rfl, rfl, rfl, by simp [terminalStatuses], rfl, rfl, rfl, rfl,
        rfl, rfl, rfl⟩
    | ok scraped =>
      by_cases hsc : scraped = []
      · subst hsc
        rw [search_no_data env db form hv hfind hfetch]
        exact ⟨"no_data", _, rfl, rfl, rfl, by simp [terminalStatuses], rfl, rfl, rfl, rfl,
          rfl, rfl, rfl⟩
      · cases hpf : env.persistFails with
        | some m =>
          rw [search_persist_fail env db form scraped m hv hfind hfetch hsc hpf]
          exact ⟨"failed", _, rfl, rfl, rfl, by simp [terminalStatuses], rfl, rfl, rfl, rfl,
            rfl, rfl, rfl⟩
        | none =>
          rw [search_success env db form scraped hv hfind hfetch hsc hpf]
          exact ⟨"success", _, rfl, rfl, rfl, by simp [terminalStatuses], rfl, rfl, rfl, rfl,
            rfl, rfl, rfl⟩

/-- Concrete run of the ledger-lifecycle property on the demo adapter. -/
theorem spec_C1_witness :
    ∃ (st : String) (q : QueryRec),
      (search baseEnv emptyDB demoForm).2.2.head? = some Event.ledgerBegin ∧
      completeCount (search baseEnv emptyDB demoForm).2.2 = 1 ∧
      (search baseEnv emptyDB demoForm).2.2.getLast? = some (Event.ledgerComplete st) ∧
      st ∈ terminalStatuses ∧
      (search baseEnv emptyDB demoForm).1.queries = emptyDB.queries ++ [q] ∧
      q.query_status = st ∧
      q.response_time_ms = some baseEnv.elapsedMs ∧
      q.case_type = pyStrip demoForm.case_type ∧
      q.case_number = pyStrip demoForm.case_number ∧
      q.filing_year = (pyInt (pyStrip demoForm.filing_year)).getD 0 ∧
      q.court_name = pyStrip demoForm.court_name :=
  spec_C1_ledger_lifecycle baseEnv emptyDB demoForm (by decide)

/-- Claim C2 counterexample: when persisting the fetched case fails, the
except handler renders only the error page - the fetched case data is not
returned to the caller, contrary to the specified best-effort return. -/
theorem spec_C2_counterexample :
    (search dbFailEnv emptyDB demoForm).2.1
      = .failure "Database error occurred. Please try again." ∧
    ∀ cd caseId summary, (search dbFailEnv emptyDB demoForm).2.1 ≠ .fresh cd caseId summary := by
  rw [search_persist_fail dbFailEnv emptyDB demoForm demoScraped "database write failed"
    (by decide) rfl rfl (List.cons_ne_nil _ _) rfl]
  constructor
  · rfl
  · intro cd caseId summary h
    simp at h

/-- Claim C2 (amended): when the source fetch succeeds but persisting the
new case fails, the attempt transitions to failed with the exception text
and elapsed time recorded, the caller receives only the classified storage
error - not the fetched case data - and no case or order row is stored. -/
theorem spec_C2_persist_fail_flow (env : Env) (db : DB) (form : RawForm) (scraped : JObj)
    (m : String)
    (hv : validationErrors env.currentYear form = [])
    (hfind : findExisting db.cases (pyStrip form.case_type) (pyStrip form.case_number)
      ((pyInt (pyStrip form.filing_year)).getD 0) (pyStrip form.court_name) = none)
    (hfetch : env.fetch (pyStrip form.case_type) (pyStrip form.case_number)
      ((pyInt (pyStrip form.filing_year)).getD 0) (pyStrip form.court_name) = .ok scraped)
    (hne : scraped ≠ []) (hpf : env.persistFails = some m) :
    (search env db form).2.1 = .failure (classifyError m) ∧
    (∀ cd caseId summary, (search env db form).2.1 ≠ .fresh cd caseId summary) ∧
    (search env db form).1.queries = db.queries ++
      [⟨pyStrip form.case_type, pyStrip form.case_number,
        (pyInt (pyStrip form.filing_year)).getD 0, pyStrip form.court_name,
        "failed", some env.elapsedMs, some m, none⟩] ∧
    (search env db form).1.cases = db.cases ∧
    (search env db form).1.orders = db.orders := by
  rw [search_persist_fail env db form scraped m hv hfind hfetch hne hpf]
  exact ⟨rfl, fun cd caseId summary h => by simp at h, rfl, rfl, rfl⟩

/-- Concrete run of the persist-failure flow. -/
theorem spec_C2_persist_fail_flow_witness :
    (search dbFailEnv emptyDB demoForm).2.1
      = .failure (classifyError "database write failed") ∧
    (∀ cd caseId summary,
      (search dbFailEnv emptyDB demoForm).2.1 ≠ .fresh cd caseId summary) ∧
    (search dbFailEnv emptyDB demoForm).1.queries = emptyDB.queries ++
      [⟨pyStrip demoForm.case_type, pyStrip demoForm.case_number,
        (pyInt (pyStrip demoForm.filing_year)).getD 0, pyStrip demoForm.court_name,
        "failed", some dbFailEnv.elapsedMs, some "database write failed", none⟩] ∧
    (search dbFailEnv emptyDB demoForm).1.cases = emptyDB.cases ∧
    (search dbFailEnv emptyDB demoForm).1.orders = emptyDB.orders :=
  spec_C2_persist_fail_flow dbFailEnv emptyDB demoForm demoScraped "database write failed"
    (by decide) rfl rfl (List.cons_ne_nil _ _) rfl

/-- Claim C3 counterexample: a case number that is both non-numeric and
longer than ten characters yields only the digits-only message; the
length message is dropped, so not all violated rules are listed. -/
theorem spec_C3_counterexample :
    pyIsDigit (pyStrip badNumberForm.case_number) = false ∧
    (pyStrip badNumberForm.case_number).length > 10 ∧
    validationErrors 2025 badNumberForm
      = ["Case Number must contain only numbers (e.g., 123)"] ∧
    "Case Number is too long (maximum 10 digits)" ∉ validationErrors 2025 badNumberForm :=
  ⟨by decide, by decide, by decide, by decide⟩

/-- Claim C3 (amended): on a validation failure the route returns the
per-field messages accumulated across fields in source order and touches
no state (no ledger entry); within one field the checking is fail-fast -
each field contributes at most one message, the first violated rule - and
a field contributes no message exactly when it satisfies its invariant. -/
theorem spec_C3_validation_accumulation (env : Env) (db : DB) (form : RawForm)
    (h : validationErrors env.currentYear form ≠ []) :
    search env db form
      = (db, .validationError (validationErrors env.currentYear form) form, []) ∧
    validationErrors env.currentYear form
      = caseTypeErrors (pyStrip form.case_type) ++ caseNumberErrors (pyStrip form.case_number)
        ++ filingYearErrors env.currentYear (pyStrip form.filing_year)
        ++ courtNameErrors (pyStrip form.court_name) ∧
    (caseTypeErrors (pyStrip form.case_type) = []
      ↔ (pyStrip form.case_type ≠ ""
          ∧ get_court_types.contains (pyStrip form.case_type) = true)) ∧
    (caseNumberErrors (pyStrip form.case_number) = []
      ↔ (pyStrip form.case_number ≠ "" ∧ pyIsDigit (pyStrip form.case_number) = true
          ∧ (pyStrip form.case_number).length ≤ 10)) ∧
    (filingYearErrors env.currentYear (pyStrip form.filing_year) = []
      ↔ (pyStrip form.filing_year ≠ ""
          ∧ ∃ y, pyInt (pyStrip form.filing_year) = some y
              ∧ 1947 ≤ y ∧ y ≤ env.currentYear)) ∧
    (courtNameErrors (pyStrip form.court_name) = [] ↔ pyStrip form.court_name ≠ "") ∧
    (caseTypeErrors (pyStrip form.case_type)).length ≤ 1 ∧
    (caseNumberErrors (pyStrip form.case_number)).length ≤ 1 ∧
    (filingYearErrors env.currentYear (pyStrip form.filing_year)).length ≤ 1 ∧
    (courtNameErrors (pyStrip form.court_name)).length ≤ 1 :=
  ⟨search_validation env db form h, rfl,
   caseTypeErrors_nil _, caseNumberErrors_nil _, filingYearErrors_nil _ _,
   courtNameErrors_nil _, caseTypeErrors_len _, caseNumberErrors_len _,
   filingYearErrors_len _ _, courtNameErrors_len _⟩

/-- Concrete run of the validation-failure flow on the double-violation
form. -/
theorem spec_C3_validation_accumulation_witness :
    search baseEnv emptyDB badNumberForm
      = (emptyDB, .validationError (validationErrors baseEnv.currentYear badNumberForm)
          badNumberForm, []) ∧
    validationErrors baseEnv.currentYear badNumberForm
      = caseTypeErrors (pyStrip badNumberForm.case_type)
        ++ caseNumberErrors (pyStrip badNumberForm.case_number)
        ++ filingYearErrors baseEnv.currentYear (pyStrip badNumberForm.filing_year)
        ++ courtNameErrors (pyStrip badNumberForm.court_name) ∧
    (caseTypeErrors (pyStrip badNumberForm.case_type) = []
      ↔ (pyStrip badNumberForm.case_type ≠ ""
          ∧ get_court_types.contains (pyStrip badNumberForm.case_type) = true)) ∧
    (caseNumberErrors (pyStrip badNumberForm.case_number) = []
      ↔ (pyStrip badNumberForm.case_number ≠ ""
          ∧ pyIsDigit (pyStrip badNumberForm.case_number) = true
          ∧ (pyStrip badNumberForm.case_number).length ≤ 10)) ∧
    (filingYearErrors baseEnv.currentYear (pyStrip badNumberForm.filing_year) = []
      ↔ (pyStrip badNumberForm.filing_year ≠ ""
          ∧ ∃ y, pyInt (pyStrip badNumberForm.filing_year) = some y
              ∧ 1947 ≤ y ∧ y ≤ baseEnv.currentYear)) ∧
    (courtNameErrors (pyStrip badNumberForm.court_name) = []
      ↔ pyStrip badNumberForm.court_name ≠ "") ∧
    (caseTypeErrors (pyStrip badNumberForm.case_type)).length ≤ 1 ∧
    (caseNumberErrors (pyStrip badNumberForm.case_number)).length ≤ 1 ∧
    (filingYearErrors baseEnv.currentYear (pyStrip badNumberForm.filing_year)).length ≤ 1 ∧
    (courtNameErrors (pyStrip badNumberForm.court_name)).length ≤ 1 :=
  spec_C3_validation_accumulation baseEnv emptyDB badNumberForm (by decide)

/-- Claim C4: after a first resolution of a fingerprint ends in success,
resolving the same fingerprint again hits the cache: the second run
returns cache_hit with the same case identity and the same stored summary,
and makes no source fetch and no summarization call. -/
theorem spec_C4_cache_idempotence (env1 env2 : Env) (db : DB) (form : RawForm) (scraped : JObj)
    (hv1 : validationErrors env1.currentYear form = [])
    (hv2 : validationErrors env2.currentYear form = [])
    (hmiss : findExisting db.cases (pyStrip form.case_type) (pyStrip form.case_number)
      ((pyInt (pyStrip form.filing_year)).getD 0) (pyStrip form.court_name) = none)
    (hfetch : env1.fetch (pyStrip form.case_type) (pyStrip form.case_number)
      ((pyInt (pyStrip form.filing_year)).getD 0) (pyStrip form.court_name) = .ok scraped)
    (hne : scraped ≠ [])
    (hpf : env1.persistFails = none) :
    ∃ cd,
      (search env1 db form).2.1
        = .fresh scraped db.nextCaseId (summarize_court_data env1.client scraped) ∧
      (search env2 (search env1 db form).1 form).2.1
        = .cacheHit cd db.nextCaseId (some (summarize_court_data env1.client scraped)) ∧
      (search env2 (search env1 db form).1 form).2.2
        = [.ledgerBegin, .cacheLookup, .ledgerComplete "cache_hit"] ∧
      Event.sourceFetch ∉ (search env2 (search env1 db form).1 form).2.2 ∧
      Event.summarizeCall ∉ (search env2 (search env1 db form).1 form).2.2 := by
  have h1 := search_success env1 db form scraped hv1 hmiss hfetch hne hpf
  have hmatch := fingerMatches_mkNewCase (pyStrip form.case_type) (pyStrip form.case_number)
    ((pyInt (pyStrip form.filing_year)).getD 0) (pyStrip form.court_name) db.nextCaseId scraped
    (summarize_court_data env1.client scraped)
  have hfind2 : findExisting (search env1 db form).1.cases (pyStrip form.case_type)
      (pyStrip form.case_number) ((pyInt (pyStrip form.filing_year)).getD 0)
      (pyStrip form.court_name)
      = some (mkNewCase db.nextCaseId (pyStrip form.case_type) (pyStrip form.case_number)
          ((pyInt (pyStrip form.filing_year)).getD 0) (pyStrip form.court_name) scraped
          (summarize_court_data env1.client scraped)) := by
    rw [h1]
    exact findExisting_append db.cases _ _ _ _ _ hmiss hmatch
  have h2 := search_cache_hit env2 (search env1 db form).1 form
    (mkNewCase db.nextCaseId (pyStrip form.case_type) (pyStrip form.case_number)
      ((pyInt (pyStrip form.filing_year)).getD 0) (pyStrip form.court_name) scraped
      (summarize_court_data env1.client scraped)) hv2 hfind2
  refine ⟨cacheCourtData (mkNewCase db.nextCaseId (pyStrip form.case_type)
    (pyStrip form.case_number) ((pyInt (pyStrip form.filing_year)).getD 0)
    (pyStrip form.court_name) scraped (summarize_court_data env1.client scraped)),
    ?_, ?_, ?_, ?_, ?_⟩
  · rw [h1]
  · rw [h2]
    rfl
  · rw [h2]
  · rw [h2]
    simp
  · rw [h2]
    simp

/-- Concrete idempotence run: success on the demo adapter, then a cache
hit with the same identity and summary. -/
theorem spec_C4_witness :
    ∃ cd,
      (search baseEnv emptyDB demoForm).2.1
        = .fresh demoScraped emptyDB.nextCaseId
            (summarize_court_data baseEnv.client demoScraped) ∧
      (search baseEnv (search baseEnv emptyDB demoForm).1 demoForm).2.1
        = .cacheHit cd emptyDB.nextCaseId
            (some (summarize_court_data baseEnv.client demoScraped)) ∧
      (search baseEnv (search baseEnv emptyDB demoForm).1 demoForm).2.2
        = [.ledgerBegin, .cacheLookup, .ledgerComplete "cache_hit"] ∧
      Event.sourceFetch ∉ (search baseEnv (search baseEnv emptyDB demoForm).1 demoForm).2.2 ∧
      Event.summarizeCall ∉ (search baseEnv (search baseEnv emptyDB demoForm).1 demoForm).2.2 :=
  spec_C4_cache_idempotence baseEnv baseEnv emptyDB demoForm demoScraped
    (by decide) (by decide) rfl rfl (List.cons_ne_nil _ _) rfl

/-- Claim C5: when the source adapter returns no data, the ledger attempt
ends no_data with the explanatory error message, no case and no order row
is persisted, and the caller receives the no-data result. -/
theorem spec_C5_no_data_flow (env : Env) (db : DB) (form : RawForm)
    (hv : validationErrors env.currentYear form = [])
    (hfind : findExisting db.cases (pyStrip form.case_type) (pyStrip form.case_number)
      ((pyInt (pyStrip form.filing_year)).getD 0) (pyStrip form.court_name) = none)
    (hfetch : env.fetch (pyStrip form.case_type) (pyStrip form.case_number)
      ((pyInt (pyStrip form.filing_year)).getD 0) (pyStrip form.court_name) = .ok []) :
    (search env db form).2.1
      = .noData "No case found with the provided details. Please verify the case information." ∧
    (search env db form).1.queries = db.queries ++
      [⟨pyStrip form.case_type, pyStrip form.case_number,
        (pyInt (pyStrip form.filing_year)).getD 0, pyStrip form.court_name,
        "no_data", some env.elapsedMs, some "No data found for the given case details", none⟩] ∧
    (search env db form).1.cases = db.cases ∧
    (search env db form).1.orders = db.orders ∧
    (search env db form).2.2.getLast? = some (.ledgerComplete "no_data") := by
  rw [search_no_data env db form hv hfind hfetch]
  exact ⟨rfl, rfl, rfl, rfl, rfl⟩

/-- Concrete run of the no-data flow on an adapter that finds nothing. -/
theorem spec_C5_witness :
    (search notFoundEnv emptyDB demoForm).2.1
      = .noData "No case found with the provided details. Please verify the case information." ∧
    (search notFoundEnv emptyDB demoForm).1.queries = emptyDB.queries ++
      [⟨pyStrip demoForm.case_type, pyStrip demoForm.case_number,
        (pyInt (pyStrip demoForm.filing_year)).getD 0, pyStrip demoForm.court_name,
        "no_data", some notFoundEnv.elapsedMs,
        some "No data found for the given case details", none⟩] ∧
    (search notFoundEnv emptyDB demoForm).1.cases = emptyDB.cases ∧
    (search notFoundEnv emptyDB demoForm).1.orders = emptyDB.orders ∧
    (search notFoundEnv emptyDB demoForm).2.2.getLast? = some (.ledgerComplete "no_data") :=
  spec_C5_no_data_flow notFoundEnv emptyDB demoForm (by decide) rfl rfl

/-- Claim C6: the summarizer is total and deterministic: with no model
client it returns the rule-based fallback built from the input fields, and
with a client whose every invocation raises it returns the fixed fallback
text; both are pure functions of the input. -/
theorem spec_C6_summarizer_fallback (d : JObj) (invoke : String → Except String String)
    (hfail : ∀ s, ∃ e, invoke s = .error e) :
    summarize_court_data .absent d = fallback_summary d ∧
    summarize_court_data (.present invoke) d = fallback_summary_text := by
  refine ⟨rfl, ?_⟩
  obtain ⟨e, he⟩ := hfail (prepare_input_text d)
  simp [summarize_court_data, he]

/-- Concrete summarizer runs: absent client, and an always-raising client. -/
theorem spec_C6_witness :
    summarize_court_data .absent miniCaseData = fallback_summary miniCaseData ∧
    summarize_court_data (.present fun _ => .error "boom") miniCaseData
      = fallback_summary_text :=
  spec_C6_summarizer_fallback miniCaseData (fun _ => .error "boom") (fun s => ⟨"boom", rfl⟩)

/-- Claim C7: on a successful resolution every persisted document row is
marked is_latest exactly when the source payload listed exactly one
document; with several documents none is marked. -/
theorem spec_C7_is_latest (env : Env) (db : DB) (form : RawForm) (scraped : JObj)
    (hv : validationErrors env.currentYear form = [])
    (hfind : findExisting db.cases (pyStrip form.case_type) (pyStrip form.case_number)
      ((pyInt (pyStrip form.filing_year)).getD 0) (pyStrip form.court_name) = none)
    (hfetch : env.fetch (pyStrip form.case_type) (pyStrip form.case_number)
      ((pyInt (pyStrip form.filing_year)).getD 0) (pyStrip form.court_name) = .ok scraped)
    (hne : scraped ≠ []) (hpf : env.persistFails = none) :
    ∃ newOrders,
      (search env db form).1.orders = db.orders ++ newOrders ∧
      newOrders.length = (ordersOf scraped).length ∧
      (∀ o ∈ newOrders, (o.is_latest = true ↔ (ordersOf scraped).length = 1)) ∧
      ((ordersOf scraped).length ≠ 1 → ∀ o ∈ newOrders, o.is_latest = false) := by
  rw [search_success env db form scraped hv hfind hfetch hne hpf]
  refine ⟨(ordersOf scraped).map (mkOrder env.today db.nextCaseId (ordersOf scraped).length),
    rfl, by simp, ?_, ?_⟩
  · intro o ho
    simp only [List.mem_map] at ho
    obtain ⟨od, hod, rfl⟩ := ho
    simp [mkOrder]
  · intro hlen o ho
    simp only [List.mem_map] at ho
    obtain ⟨od, hod, rfl⟩ := ho
    simp [mkOrder, hlen]

/-- Concrete is_latest run: the demo Civil Appeal payload carries two
documents, so neither persisted row is marked latest. -/
theorem spec_C7_witness :
    ∃ newOrders,
      (search baseEnv emptyDB demoForm).1.orders = emptyDB.orders ++ newOrders ∧
      newOrders.length = (ordersOf demoScraped).length ∧
      (∀ o ∈ newOrders, (o.is_latest = true ↔ (ordersOf demoScraped).length = 1)) ∧
      ((ordersOf demoScraped).length ≠ 1 → ∀ o ∈ newOrders, o.is_latest = false) :=
  spec_C7_is_latest baseEnv emptyDB demoForm demoScraped
    (by decide) rfl rfl (List.cons_ne_nil _ _) rfl

/-- Claim C8 counterexample: a document date that fails to parse is stored
as the environment's current date, not as an absent value. -/
theorem spec_C8_counterexample :
    parseDateYMD "not-a-date" = none ∧
    (search badDatesEnv emptyDB demoForm).1.orders.map CaseOrderRec.order_date
      = [some badDatesEnv.today] ∧
    some badDatesEnv.today ≠ (none : Option Date) := by
  refine ⟨by decide, ?_, by decide⟩
  rw [search_success badDatesEnv emptyDB demoForm badDatesScraped (by decide) rfl rfl
    (List.cons_ne_nil _ _) rfl]
  rfl

/-- Claim C8 (amended): unparseable case dates (filing, next hearing) are
stored absent and never abort the pipeline, which still completes
successfully; an unparseable document date, however, is stored as the
current date rather than absent. -/
theorem spec_C8_date_handling (env : Env) (db : DB) (form : RawForm) (scraped : JObj)
    (hv : validationErrors env.currentYear form = [])
    (hfind : findExisting db.cases (pyStrip form.case_type) (pyStrip form.case_number)
      ((pyInt (pyStrip form.filing_year)).getD 0) (pyStrip form.court_name) = none)
    (hfetch : env.fetch (pyStrip form.case_type) (pyStrip form.case_number)
      ((pyInt (pyStrip form.filing_year)).getD 0) (pyStrip form.court_name) = .ok scraped)
    (hne : scraped ≠ []) (hpf : env.persistFails = none)
    (fs : String) (hfd : jGet "filing_date" scraped = some (.str fs))
    (hfp : parseDateYMD fs = none)
    (ns : String) (hnd : jGet "next_hearing_date" scraped = some (.str ns))
    (hnp : parseDateYMD ns = none)
    (od : JValue) (hom : od ∈ ordersOf scraped) (ds : String)
    (hod : jGetJ od "date" = some (.str ds)) (hds : ds ≠ "")
    (hdp : parseDateYMD ds = none) :
    ∃ new_case,
      (search env db form).1.cases = db.cases ++ [new_case] ∧
      new_case.filing_date = none ∧
      new_case.next_hearing_date = none ∧
      mkOrder env.today new_case.id (ordersOf scraped).length od
        ∈ (search env db form).1.orders ∧
      (mkOrder env.today new_case.id (ordersOf scraped).length od).order_date
        = some env.today ∧
      (search env db form).2.2.getLast? = some (.ledgerComplete "success") := by
  rw [search_success env db form scraped hv hfind hfetch hne hpf]
  refine ⟨_, rfl, ?_, ?_, ?_, ?_, rfl⟩
  · simp only [mkNewCase]
    rw [hfd]
    simp only [truthyStrDate]
    split_ifs with h
    · rfl
    · exact hfp
  · simp only [mkNewCase]
    rw [hnd]
    simp only [truthyStrDate]
    split_ifs with h
    · rfl
    · exact hnp
  · exact List.mem_append_right _ (List.mem_map_of_mem _ hom)
  · simp only [mkOrder]
    rw [hod]
    simp only [orderDateOf]
    rw [if_neg hds, hdp]

/-- Concrete date-handling run on a payload whose three dates all fail to
parse. -/
theorem spec_C8_date_handling_witness :
    ∃ new_case,
      (search badDatesEnv emptyDB demoForm).1.cases = emptyDB.cases ++ [new_case] ∧
      new_case.filing_date = none ∧
      new_case.next_hearing_date = none ∧
      mkOrder badDatesEnv.today new_case.id (ordersOf badDatesScraped).length badDateOrder
        ∈ (search badDatesEnv emptyDB demoForm).1.orders ∧
      (mkOrder badDatesEnv.today new_case.id (ordersOf badDatesScraped).length
        badDateOrder).order_date = some badDatesEnv.today ∧
      (search badDatesEnv emptyDB demoForm).2.2.getLast?
        = some (.ledgerComplete "success") :=
  spec_C8_date_handling badDatesEnv emptyDB demoForm badDatesScraped
    (by decide) rfl rfl (List.cons_ne_nil _ _) rfl
    "bad-date" rfl (by decide)
    "also-bad" rfl (by decide)
    badDateOrder (List.mem_singleton_self _)
    "not-a-date" rfl (by decide) (by decide)

/-- Claim C9: writing a structured payload with set_parsed_data and reading
it back with get_parsed_data returns the same mapping (the stored JSON
text round-trips through dumps and loads). -/
theorem spec_C9_roundtrip (c : CourtCaseRec) (d : JObj) :
    get_parsed_data (set_parsed_data c d) = .obj d := by
  unfold get_parsed_data set_parsed_data
  simp only []
  have hne : dumps (.obj d) ≠ "" := by
    unfold dumps
    intro h
    have h2 := congrArg String.data h
    simp [printV] at h2
  simp [hne, loads_dumps]


/-! ### Behaviour of the demo generation -/

theorem demoOrders_len (ct cn : String) (fy : Int) :
    1 <= (demoCaseInfo ct cn fy).orders.length := by
  unfold demoCaseInfo
  split_ifs <;> simp

theorem ordersOf_demoPayload (sat ct cn : String) (fy : Int) (cnm : String)
    (det : DemoDetails) : ordersOf (demoPayload sat ct cn fy cnm det) = det.orders := rfl

theorem scrape_raises (sat ct cn : String) (fy : Int) (cnm : String) (e : String)
    (h : demoIdx cn = .error e) :
    scrape_case_data sat ct cn fy cnm = .error e := by
  unfold scrape_case_data get_case_type_details
  rw [h]

theorem scrape_returns (sat ct cn : String) (fy : Int) (cnm : String) (idx : Nat)
    (h : demoIdx cn = .ok idx) :
    scrape_case_data sat ct cn fy cnm
      = .ok (demoPayload sat ct cn fy cnm (mkDemoDetails ct cn fy idx)) := by
  unfold scrape_case_data get_case_type_details
  rw [h]

theorem demoIdx_error_iff (cn : String) :
    (∃ e, demoIdx cn = .error e) ↔ (pyIsDigitU cn = true ∧ pyIsDigit cn = false) := by
  unfold demoIdx
  by_cases h1 : pyIsDigitU cn = true
  · by_cases h2 : pyIsDigit cn = true
    · simp [h1, h2]
    · simp [h1, h2]
  · simp [h1]

/-- Claim C10 counterexample: a superscript-two case number is accepted by
str.isdigit but rejected by int(), so the demo generation raises; both the
try body and the except branch of scrape_case_data invoke it, so the
exception escapes and no payload is returned - the adapter does not
"never raise". -/
theorem spec_C10_counterexample :
    pyIsDigitU "²" = true ∧
    pyIsDigit "²" = false ∧
    scrape_case_data "2025-06-01T10:00:00" "Civil Appeal" "²" 2024 "Delhi High Court"
      = .error ("ValueError: invalid literal for int() with base 10: " ++ "²") ∧
    ∀ j, scrape_case_data "2025-06-01T10:00:00" "Civil Appeal" "²" 2024 "Delhi High Court"
      ≠ .ok j := by
  refine ⟨by decide, by decide, ?_, ?_⟩
  · exact scrape_raises _ _ _ _ _ _ rfl
  · intro j h
    rw [scrape_raises "2025-06-01T10:00:00" "Civil Appeal" "²" 2024 "Delhi High Court"
      ("ValueError: invalid literal for int() with base 10: " ++ "²") rfl] at h
    simp at h

/-- Claim C10 (amended): the demo generation raises exactly for case
numbers str.isdigit accepts but int() rejects; whenever it returns, the
payload is non-empty and lists at least one document descriptor; and under
this adapter the resolver still never reaches the no_data outcome - a
raising generation surfaces through the except handler as a failed
resolution, not as no_data. -/
theorem spec_C10_demo_behavior (sat ct cn : String) (fy : Int) (cnm : String) :
    ((∃ e, scrape_case_data sat ct cn fy cnm = .error e)
      ↔ (pyIsDigitU cn = true ∧ pyIsDigit cn = false)) ∧
    (∀ j, scrape_case_data sat ct cn fy cnm = .ok j →
      j ≠ [] ∧ 1 <= (ordersOf j).length) ∧
    (∀ (env : Env) (db : DB) (form : RawForm) (m : String),
      env.fetch = demoFetch sat → (search env db form).2.1 ≠ .noData m) := by
  refine ⟨?_, ?_, ?_⟩
  · constructor
    · rintro ⟨e, he⟩
      cases hidx : demoIdx cn with
      | error e2 => exact (demoIdx_error_iff cn).mp ⟨e2, hidx⟩
      | ok idx =>
        rw [scrape_returns sat ct cn fy cnm idx hidx] at he
        simp at he
    · intro h
      obtain ⟨e, he⟩ := (demoIdx_error_iff cn).mpr h
      exact ⟨e, scrape_raises sat ct cn fy cnm e he⟩
  · intro j hj
    cases hidx : demoIdx cn with
    | error e =>
      rw [scrape_raises sat ct cn fy cnm e hidx] at hj
      simp at hj
    | ok idx =>
      rw [scrape_returns sat ct cn fy cnm idx hidx] at hj
      injection hj with hj2
      subst hj2
      refine ⟨List.cons_ne_nil _ _, ?_⟩
      rw [ordersOf_demoPayload]
      exact demoOrders_len ct cn fy
  · intro env db form m hf
    by_cases hv : validationErrors env.currentYear form = []
    · cases hfind : findExisting db.cases (pyStrip form.case_type) (pyStrip form.case_number)
          ((pyInt (pyStrip form.filing_year)).getD 0) (pyStrip form.court_name) with
      | some c =>
        rw [search_cache_hit env db form c hv hfind]
        simp
      | none =>
        cases hidx : demoIdx (pyStrip form.case_number) with
        | error e =>
          have hfetch : env.fetch (pyStrip form.case_type) (pyStrip form.case_number)
              ((pyInt (pyStrip form.filing_year)).getD 0) (pyStrip form.court_name)
              = .error e := by
            rw [hf]
            exact scrape_raises sat (pyStrip form.case_type) (pyStrip form.case_number)
              ((pyInt (pyStrip form.filing_year)).getD 0) (pyStrip form.court_name) e hidx
          rw [search_fetch_error env db form e hv hfind hfetch]
          simp
        | ok idx =>
          have hfetch : env.fetch (pyStrip form.case_type) (pyStrip form.case_number)
              ((pyInt (pyStrip form.filing_year)).getD 0) (pyStrip form.court_name)
              = .ok (demoPayload sat (pyStrip form.case_type) (pyStrip form.case_number)
                  ((pyInt (pyStrip form.filing_year)).getD 0) (pyStrip form.court_name)
                  (mkDemoDetails (pyStrip form.case_type) (pyStrip form.case_number)
                    ((pyInt (pyStrip form.filing_year)).getD 0) idx)) := by
            rw [hf]
            exact scrape_returns sat (pyStrip form.case_type) (pyStrip form.case_number)
              ((pyInt (pyStrip form.filing_year)).getD 0) (pyStrip form.court_name) idx hidx
          cases hpf : env.persistFails with
          | some pm =>
            rw [search_persist_fail env db form _ pm hv hfind hfetch
              (List.cons_ne_nil _ _) hpf]
            simp
          | none =>
            rw [search_success env db form _ hv hfind hfetch (List.cons_ne_nil _ _) hpf]
            simp
    · rw [search_validation env db form hv]
      simp

/-- Concrete demo-generation runs: the demo request generates a non-empty
payload with documents, the superscript case number makes the generation
raise, and the demo resolution does not end in no_data. -/
theorem spec_C10_behavior_witness :
    (demoScraped ≠ [] ∧ 1 <= (ordersOf demoScraped).length) ∧
    (∃ e, scrape_case_data "2025-06-01T10:00:00" "Civil Appeal" "²" 2024 "Delhi High Court"
      = .error e) ∧
    (search baseEnv emptyDB demoForm).2.1
      ≠ .noData "No case found with the provided details. Please verify the case information." :=
  ⟨(spec_C10_demo_behavior "2025-06-01T10:00:00" (pyStrip demoForm.case_type)
      (pyStrip demoForm.case_number) ((pyInt (pyStrip demoForm.filing_year)).getD 0)
      (pyStrip demoForm.court_name)).2.1 demoScraped rfl,
   (spec_C10_demo_behavior "2025-06-01T10:00:00" "Civil Appeal" "²" 2024
      "Delhi High Court").1.mpr ⟨by decide, by decide⟩,
   (spec_C10_demo_behavior "2025-06-01T10:00:00" (pyStrip demoForm.case_type)
      (pyStrip demoForm.case_number) ((pyInt (pyStrip demoForm.filing_year)).getD 0)
      (pyStrip demoForm.court_name)).2.2 baseEnv emptyDB demoForm
      "No case found with the provided details. Please verify the case information." rfl⟩
